import Mathlib

/-!
Verification development for a driver-assistance subsystem consisting of the
GM actuator controller (selfdrive/car/gm/carcontroller.py) and the radar
fusion pipeline (selfdrive/controls/radard.py).  The Python sources are
shallowly embedded over exact rational arithmetic: Python floats become `ℚ`,
Python ints become `ℤ`/`ℕ`, mutable object state becomes explicit state
records threaded through update functions, and the outgoing CAN messages
become a list of tagged frames.
-/

namespace DAS

/-- Python round(x) as used by the source through int(round(x)): round half to
even, returning an integer. -/
def pyRound (x : ℚ) : ℤ :=
  if x - Int.floor x < 1/2 then Int.floor x
  else if x - Int.floor x > 1/2 then Int.floor x + 1
  else if Int.floor x % 2 = 0 then Int.floor x else Int.floor x + 1

/-- Python int() applied to a float: truncation toward zero. -/
def pyTrunc (x : ℚ) : ℤ :=
  if 0 ≤ x then Int.floor x else Int.ceil x

/-- Modelled from the spec: clip from common/numpy_fast.py (not in src);
clip(x, lo, hi) = max(lo, min(hi, x)). -/
def clip (x lo hi : ℚ) : ℚ := max lo (min hi x)

/-- Tail of the piecewise-linear interpolation walk.  Invariant: x is strictly
to the right of the previous breakpoint (xl, fl); ps holds the remaining
breakpoint/value pairs. -/
def interpFrom (x : ℚ) (xl fl : ℚ) : List (ℚ × ℚ) → ℚ
  | [] => fl
  | (xh, fh) :: rest =>
    if x ≤ xh then (x - xl) * (fh - fl) / (xh - xl) + fl
    else interpFrom x xh fh rest

/-- Modelled from the spec: interp from common/numpy_fast.py (not in src) —
standard piecewise-linear interpolation over breakpoints xp with values fp,
clamping to fp.head below the first breakpoint and to fp.last above the last
one.  On tables whose breakpoints repeat, the source raises ZeroDivisionError
while this model returns the left value; all tables used by the claims have
strictly increasing breakpoints. -/
def interp (x : ℚ) (xp fp : List ℚ) : ℚ :=
  match xp.zip fp with
  | [] => 0
  | (x0, f0) :: rest => if x ≤ x0 then f0 else interpFrom x x0 f0 rest

theorem interpFrom_bound {lo hi : ℚ} (x : ℚ) (ps : List (ℚ × ℚ)) (xl fl : ℚ)
    (hfl : lo ≤ fl ∧ fl ≤ hi) (hps : ∀ p ∈ ps, lo ≤ p.2 ∧ p.2 ≤ hi) (hx : xl < x) :
    lo ≤ interpFrom x xl fl ps ∧ interpFrom x xl fl ps ≤ hi := by
  induction ps generalizing xl fl with
  | nil => simpa [interpFrom] using hfl
  | cons p rest ih =>
    obtain ⟨xh, fh⟩ := p
    have hfh : lo ≤ fh ∧ fh ≤ hi := hps (xh, fh) (by simp)
    simp only [interpFrom]
    split
    case isTrue hxh =>
      have hd : 0 < xh - xl := by linarith
      set t : ℚ := (x - xl) / (xh - xl) with ht
      have ht0 : 0 ≤ t := div_nonneg (by linarith) (le_of_lt hd)
      have ht1 : t ≤ 1 := by
        rw [ht, div_le_one hd]; linarith
      have hval : (x - xl) * (fh - fl) / (xh - xl) + fl = fl + t * (fh - fl) := by
        field_simp [ht]
        ring
      rw [hval]
      constructor
      · nlinarith [mul_nonneg (sub_nonneg.mpr ht1) (sub_nonneg.mpr hfl.1),
          mul_nonneg ht0 (sub_nonneg.mpr hfh.1)]
      · nlinarith [mul_nonneg (sub_nonneg.mpr ht1) (sub_nonneg.mpr hfl.2),
          mul_nonneg ht0 (sub_nonneg.mpr hfh.2)]
    case isFalse hxh =>
      exact ih xh fh hfh (fun p hp => hps p (by simp [hp])) (lt_of_not_le hxh)

theorem interp_bound {lo hi : ℚ} (x : ℚ) (xp fp : List ℚ)
    (hfp : ∀ v ∈ fp, lo ≤ v ∧ v ≤ hi) (hxp : xp ≠ []) (hfpne : fp ≠ []) :
    lo ≤ interp x xp fp ∧ interp x xp fp ≤ hi := by
  have hzip : xp.zip fp ≠ [] := by
    cases xp with
    | nil => exact absurd rfl hxp
    | cons a as =>
      cases fp with
      | nil => exact absurd rfl hfpne
      | cons b bs => simp [List.zip]
  have hmem : ∀ p ∈ xp.zip fp, lo ≤ p.2 ∧ p.2 ≤ hi := by
    intro p hp
    exact hfp p.2 (List.of_mem_zip hp).2
  unfold interp
  cases hz : xp.zip fp with
  | nil => exact absurd hz hzip
  | cons q rest =>
    obtain ⟨x0, f0⟩ := q
    have hf0 : lo ≤ f0 ∧ f0 ≤ hi := by
      have := hmem (x0, f0) (by rw [hz]; simp)
      simpa using this
    simp only
    split
    · exact hf0
    case isFalse hlt =>
      exact interpFrom_bound x rest x0 f0 hf0
        (fun p hp => hmem p (by rw [hz]; simp [hp])) (lt_of_not_ge fun h => hlt (by linarith))

theorem pyRound_bound {a b : ℤ} {x : ℚ} (h1 : (a : ℚ) ≤ x) (h2 : x ≤ (b : ℚ)) :
    a ≤ pyRound x ∧ pyRound x ≤ b := by
  have hfa : a ≤ Int.floor x := Int.le_floor.mpr h1
  have hfb : Int.floor x ≤ b := by
    have : Int.floor x ≤ Int.floor ((b : ℚ)) := Int.floor_le_floor h2
    simpa using this
  have hplus : ((Int.floor x : ℚ) + 1/2 ≤ x) → Int.floor x + 1 ≤ b := by
    intro h
    have hb : (Int.floor x : ℚ) + 1/2 ≤ (b : ℚ) := le_trans h h2
    have : (Int.floor x : ℚ) < (b : ℚ) := by linarith
    exact_mod_cast Int.add_one_le_iff.mpr (by exact_mod_cast this)
  unfold pyRound
  split
  · exact ⟨hfa, hfb⟩
  case isFalse hge =>
    have hxf : (Int.floor x : ℚ) + 1/2 ≤ x := by
      have h := not_lt.mp hge
      linarith
    split
    · exact ⟨le_trans hfa (by omega), hplus hxf⟩
    · split
      · exact ⟨hfa, hfb⟩
      · exact ⟨le_trans hfa (by omega), hplus hxf⟩

theorem clip_bound (x lo hi : ℚ) (h : lo ≤ hi) :
    lo ≤ clip x lo hi ∧ clip x lo hi ≤ hi := by
  unfold clip
  constructor
  · exact le_max_left _ _
  · exact max_le h (min_le_left _ _)

theorem clip_lower (x lo hi : ℚ) : lo ≤ clip x lo hi := le_max_left _ _

/-! ## Association-list dictionaries

Python dicts as used by radard.py (ar_pts, self.tracks, leads_left/center/right)
are embedded as association lists with insert-or-overwrite semantics. -/

/-- Python dict assignment d[k] = v: overwrite in place if the key exists,
append otherwise. -/
def dictInsert {κ β : Type} [DecidableEq κ] (l : List (κ × β)) (k : κ) (v : β) :
    List (κ × β) :=
  match l with
  | [] => [(k, v)]
  | (k0, v0) :: rest => if k0 = k then (k0, v) :: rest else (k0, v0) :: dictInsert rest k v

/-- Python dict lookup d[k] with a default for the (unreachable) missing case. -/
def assocGetD {κ β : Type} [DecidableEq κ] (l : List (κ × β)) (k : κ) (d : β) : β :=
  match l with
  | [] => d
  | (k0, v0) :: rest => if k0 = k then v0 else assocGetD rest k d

/-- Python dict membership test k in d. -/
def dictHasKey {κ β : Type} [DecidableEq κ] (l : List (κ × β)) (k : κ) : Bool :=
  match l with
  | [] => false
  | (k0, _) :: rest => if k0 = k then true else dictHasKey rest k

theorem dictInsert_keys {κ β : Type} [DecidableEq κ] (l : List (κ × β)) (k : κ) (v : β)
    (a : κ) : a ∈ (dictInsert l k v).map Prod.fst ↔ a ∈ l.map Prod.fst ∨ a = k := by
  induction l with
  | nil => simp [dictInsert]
  | cons p rest ih =>
    obtain ⟨k0, v0⟩ := p
    unfold dictInsert
    split
    case isTrue h => subst h; by_cases hak : a = k0 <;> simp [hak]
    case isFalse h =>
      simp only [List.map_cons, List.mem_cons, ih]
      tauto

theorem dictHasKey_iff {κ β : Type} [DecidableEq κ] (l : List (κ × β)) (k : κ) :
    dictHasKey l k = true ↔ k ∈ l.map Prod.fst := by
  induction l with
  | nil => simp [dictHasKey]
  | cons p rest ih =>
    obtain ⟨k0, v0⟩ := p
    unfold dictHasKey
    split
    case isTrue h => subst h; simp
    case isFalse h =>
      simp only [List.map_cons, List.mem_cons, ih]
      constructor
      · exact Or.inr
      · rintro (rfl | hk)
        · exact absurd rfl h
        · exact hk

/-! ## Radar fusion: data model -/

/-- Check-source tag of a lead record; the source uses the strings modelLead,
modelPath, modelLaneLines, lowSpeedOverride (enum per the spec data model). -/
inductive CheckSource where
  | modelLead
  | modelPath
  | modelLaneLines
  | lowSpeedOverride
deriving Repr, DecidableEq, Inhabited

/-- Source tag of a lead record; the source uses the strings radar and vision. -/
inductive LeadSource where
  | radar
  | vision
deriving Repr, DecidableEq, Inhabited

/-- Kalman gain parameters (radard.py KalmanParams): gains K0/K1 are looked up
by interpolating the radar timestep over the hard-coded tables. -/
def kalmanDts : List ℚ :=
  [1/100, 2/100, 3/100, 4/100, 5/100, 6/100, 7/100, 8/100, 9/100, 10/100]

def kalmanK0Table : List ℚ :=
  [12288/100000, 14557/100000, 16523/100000, 18282/100000, 19887/100000,
   21372/100000, 22761/100000, 24069/100000, 25310/100000, 26491/100000]

def kalmanK1Table : List ℚ :=
  [29666/100000, 29331/100000, 29043/100000, 28787/100000, 28555/100000,
   28342/100000, 28144/100000, 27958/100000, 27783/100000, 27617/100000]

structure KalmanParams where
  dt : ℚ
  k0 : ℚ
  k1 : ℚ
deriving Repr, DecidableEq, Inhabited

/-- KalmanParams.__init__ (radard.py lines 31-44): A = [[1, dt], [0, 1]],
C = [1, 0], K entries interpolated over dt. -/
def KalmanParams.ofDt (dt : ℚ) : KalmanParams :=
  { dt := dt
    k0 := interp dt kalmanDts kalmanK0Table
    k1 := interp dt kalmanDts kalmanK1Table }

/-- Modelled from the spec: Track (selfdrive/controls/lib/radar_helpers.py is
not in src).  Per spec section 3 a track holds dRel, yRel, vRel, vLead, the
Kalman state for the lead speed (filtered speed kfV and acceleration kfA
with A = [[1, dt], [0, 1]], C = [1, 0]), the accel estimate aLeadK with time
constant aLeadTau, a sample count and the measured flag. -/
structure Track where
  dRel : ℚ
  yRel : ℚ
  vRel : ℚ
  vLead : ℚ
  vLeadK : ℚ
  aLeadK : ℚ
  aLeadTau : ℚ
  kfV : ℚ
  kfA : ℚ
  cnt : ℕ
  measured : Bool
deriving Repr, DecidableEq, Inhabited

/-- Modelled from the spec: Track creation on first observation, Kalman state
seeded with the observed lead speed. -/
def Track.new (vLead : ℚ) : Track :=
  { dRel := 0, yRel := 0, vRel := 0, vLead := vLead, vLeadK := vLead,
    aLeadK := 0, aLeadTau := 3/2, kfV := vLead, kfA := 0, cnt := 0,
    measured := false }

/-- Modelled from the spec: Track.update — store the new measurement, run one
Kalman step on the lead speed, bump the sample count. -/
def Track.update (t : Track) (kp : KalmanParams) (dRel yRel vRel vLead : ℚ)
    (measured : Bool) : Track :=
  let xv := t.kfV + kp.dt * t.kfA
  let r := vLead - xv
  let kfV := xv + kp.k0 * r
  let kfA := t.kfA + kp.k1 * r
  { dRel := dRel, yRel := yRel, vRel := vRel, vLead := vLead,
    vLeadK := kfV, aLeadK := kfA, aLeadTau := t.aLeadTau,
    kfV := kfV, kfA := kfA, cnt := t.cnt + 1, measured := measured }

/-- Modelled from the spec: reset a newborn track's accel estimate to the
cluster aggregate. -/
def Track.reset_a_lead (t : Track) (aK aTau : ℚ) : Track :=
  { t with aLeadK := aK, aLeadTau := aTau, kfA := aK }

/-- Modelled from the spec: the cluster key is the 4-vector
[dRel, yRel, vLead, 1]. -/
def Track.get_key_for_cluster (t : Track) : List ℚ :=
  [t.dRel, t.yRel, t.vLead, 1]

/-- Arithmetic mean with the empty list mapped to 0. -/
def qMean (l : List ℚ) : ℚ := l.sum / l.length

/-- Modelled from the spec: Cluster (radar_helpers.py not in src) aggregates
tracks with similar kinematics; its kinematic accessors are member means. -/
structure Cluster where
  tracks : List Track
deriving Repr, DecidableEq, Inhabited

def Cluster.empty : Cluster := ⟨[]⟩

def Cluster.add (c : Cluster) (t : Track) : Cluster := ⟨c.tracks ++ [t]⟩

def Cluster.dRel (c : Cluster) : ℚ := qMean (c.tracks.map Track.dRel)

def Cluster.yRel (c : Cluster) : ℚ := qMean (c.tracks.map Track.yRel)

def Cluster.vRel (c : Cluster) : ℚ := qMean (c.tracks.map Track.vRel)

def Cluster.vLead (c : Cluster) : ℚ := qMean (c.tracks.map Track.vLead)

def Cluster.vLeadK (c : Cluster) : ℚ := qMean (c.tracks.map Track.vLeadK)

def Cluster.aLeadK (c : Cluster) : ℚ := qMean (c.tracks.map Track.aLeadK)

def Cluster.aLeadTau (c : Cluster) : ℚ := qMean (c.tracks.map Track.aLeadTau)

/-- Lead record published in radarState (the duck-typed lead dict of the
source).  vLatSq stores the square of the source's vLat =
sqrt((10 dPath)^2 + dRel^2); the square root is irrational in general and no
claim depends on vLat, so the square is kept exactly. -/
structure LeadRecord where
  status : Bool
  source : LeadSource
  checkSource : CheckSource
  dRel : ℚ
  yRel : ℚ
  vRel : ℚ
  vLead : ℚ
  vLeadK : ℚ
  aLeadK : ℚ
  aLeadTau : ℚ
  modelProb : ℚ
  dPath : ℚ
  vLatSq : ℚ
deriving Repr, DecidableEq, Inhabited

/-- Modelled from the spec: Cluster.get_RadarState — a status-true lead record
carrying the cluster kinematics and the given tags. -/
def Cluster.get_RadarState (c : Cluster) (modelProb : ℚ) (source : LeadSource)
    (checkSource : CheckSource) : LeadRecord :=
  { status := true, source := source, checkSource := checkSource,
    dRel := c.dRel, yRel := c.yRel, vRel := c.vRel, vLead := c.vLead,
    vLeadK := c.vLeadK, aLeadK := c.aLeadK, aLeadTau := c.aLeadTau,
    modelProb := modelProb, dPath := 0, vLatSq := 0 }

/-! ## Radar fusion: vision-to-cluster association (radard.py lines 47-73) -/

/-- Modelled from the spec: RADAR_TO_CAMERA (selfdrive/config.py, not in src),
the fixed longitudinal offset between camera and radar frames. -/
def RADAR_TO_CAMERA : ℚ := 152/100

/-- Clamped Laplacian scale from laplacian_cdf (radard.py line 48):
b := max(b, 1e-4). -/
def laplacianScale (b : ℚ) : ℚ := max b (1/10000)

/-- Exponent of laplacian_cdf (radard.py lines 47-49).  The source computes
exp(-|x-mu|/max(b, 1e-4)); exp is strictly monotone, so ranking clusters by
the sum of these exponents selects exactly the cluster the source selects by
the product of the exponentials. -/
def laplacianLogCdf (x mu b : ℚ) : ℚ := -(|x - mu| / laplacianScale b)

/-- Vision lead hypothesis (modelV2.leadsV3 entry): first elements of x, y, v
and their standard deviations, plus the model probability. -/
structure VisionLead where
  x0 : ℚ
  y0 : ℚ
  v0 : ℚ
  xStd0 : ℚ
  yStd0 : ℚ
  vStd0 : ℚ
  prob : ℚ
deriving Repr, DecidableEq, Inhabited

/-- Python max(xs, key=f): first element with maximal key; none on the empty
list, on which Python raises ValueError. -/
def pyMaxBy {α : Type} (key : α → ℚ) : List α → Option α
  | [] => none
  | x :: xs => some (xs.foldl (fun b a => if key b < key a then a else b) x)

/-- Association score of a cluster against a vision lead (the prob closure in
match_vision_to_cluster, radard.py lines 56-62), in logarithmic form. -/
def matchLogProb (v_ego : ℚ) (lead : VisionLead) (c : Cluster) : ℚ :=
  let offset_vision_dist := lead.x0 - RADAR_TO_CAMERA
  laplacianLogCdf c.dRel offset_vision_dist lead.xStd0 +
  laplacianLogCdf c.yRel (-lead.y0) lead.yStd0 +
  laplacianLogCdf (c.vRel + v_ego) lead.v0 lead.vStd0

/-- match_vision_to_cluster (radard.py lines 52-73).  The error value models
the ValueError Python's max raises on an empty cluster list; ok none models
the sanity-gate rejection. -/
def match_vision_to_cluster (v_ego : ℚ) (lead : VisionLead)
    (clusters : List Cluster) : Except Unit (Option Cluster) :=
  let offset_vision_dist := lead.x0 - RADAR_TO_CAMERA
  match pyMaxBy (matchLogProb v_ego lead) clusters with
  | none => .error ()
  | some cluster =>
    let dist_sane := |cluster.dRel - offset_vision_dist| < max (offset_vision_dist * (1/4)) 5
    let vel_sane := |cluster.vRel + v_ego - lead.v0| < 10 ∨ v_ego + cluster.vRel > 3
    if dist_sane ∧ vel_sane then .ok (some cluster) else .ok none

/-! ## Radar fusion: track table update (radard.py lines 350-369) -/

/-- Radar point of the current reading. -/
structure RadarPoint where
  trackId : ℤ
  dRel : ℚ
  yRel : ℚ
  vRel : ℚ
  measured : Bool
deriving Repr, DecidableEq, Inhabited

/-- Construction of ar_pts (radard.py lines 350-352): a dict keyed by trackId;
a duplicate id in the reading overwrites the earlier point. -/
def mkArPts (points : List RadarPoint) : List (ℤ × RadarPoint) :=
  points.foldl (fun d pt => dictInsert d pt.trackId pt) []

/-- Track-table step of RadarD.update (radard.py lines 350-369): drop tracks
absent from the reading, then create/update a track for every point. -/
def trackStep (kp : KalmanParams) (v_ego_delayed : ℚ)
    (tracks : List (ℤ × Track)) (points : List RadarPoint) : List (ℤ × Track) :=
  let ar_pts := mkArPts points
  let kept := tracks.filter (fun p => dictHasKey ar_pts p.1)
  ar_pts.foldl (fun ts idrpt =>
    let ids := idrpt.1
    let rpt := idrpt.2
    let v_lead := rpt.vRel + v_ego_delayed
    let t0 := if dictHasKey ts ids then assocGetD ts ids default else Track.new v_lead
    dictInsert ts ids (t0.update kp rpt.dRel rpt.yRel rpt.vRel v_lead rpt.measured))
    kept

/-! ## Radar fusion: clustering dispatch (radard.py lines 371-397) -/

/-- Result of the clustering section: the cluster slots (entries stay none when
the clustering oracle never assigns that index), the cluster index of each
track, and whether the external primitive cluster_points_centroid ran. -/
structure ClusteringOut where
  clusters : List (Option Cluster)
  cluster_idxs : List ℕ
  usedCentroid : Bool
deriving Repr, DecidableEq, Inhabited

/-- Clustering dispatch of RadarD.update (radard.py lines 371-390).  The
external primitive cluster_points_centroid (not in src) is passed in as an
oracle; usedCentroid records whether it was invoked.  The single-track branch
bypasses it (documented workaround: the primitive hangs on one point). -/
def computeClusters (clusterFn : List (List ℚ) → List ℕ)
    (tracks : List (ℤ × Track)) : ClusteringOut :=
  let idens := List.insertionSort (fun a b => a ≤ b) (tracks.map Prod.fst)
  let track_pts := idens.map (fun i => (assocGetD tracks i default).get_key_for_cluster)
  if track_pts.length > 1 then
    let cluster_idxs := clusterFn track_pts
    let n := cluster_idxs.foldl max 0 + 1
    let clusters := (List.range track_pts.length).foldl (fun cs idx =>
      let ci := cluster_idxs.getD idx 0
      let c := match cs.getD ci none with
        | none => Cluster.empty
        | some c0 => c0
      cs.set ci (some (c.add (assocGetD tracks (idens.getD idx 0) default))))
      (List.replicate n none)
    ⟨clusters, cluster_idxs, true⟩
  else if track_pts.length = 1 then
    ⟨[some (Cluster.empty.add (assocGetD tracks (idens.getD 0 0) default))], [0], false⟩
  else
    ⟨[], [], false⟩

/-! ## Radar fusion: long-range lead smoothing (radard.py lines 259-316) -/

/-- Modelled from the spec: FirstOrderFilter (common/filter_simple.py, not in
src) — first-order low-pass with directly settable smoothing coefficient;
the first update after (re)initialization seeds the state with the raw value. -/
structure FirstOrderFilter where
  x : ℚ
  alpha : ℚ
  initialized : Bool
deriving Repr, DecidableEq, Inhabited

def FirstOrderFilter.update_alpha (f : FirstOrderFilter) (a : ℚ) : FirstOrderFilter :=
  { f with alpha := a }

def FirstOrderFilter.update (f : FirstOrderFilter) (v : ℚ) : FirstOrderFilter :=
  if f.initialized then { f with x := (1 - f.alpha) * f.x + f.alpha * v }
  else { f with x := v, initialized := true }

/-- LEAD_MIN_SMOOTHING_DISTANCE and LEAD_MAX_DISTANCE (radard.py lines 23-24),
used as LongRangeLead.DREL_BP. -/
def LRL_DREL_BP : List ℚ := [145, 152]

/-- LongRangeLead.D_DREL_MAX_V (radard.py line 261). -/
def LRL_D_DREL_MAX_V : List ℚ := [8, 20]

/-- LongRangeLead.ALPHA_V (radard.py line 262). -/
def LRL_ALPHA_V : List ℚ := [0, 1]

/-- LongRangeLead.D_YREL_MAX (radard.py line 263). -/
def LRL_D_YREL_MAX : ℚ := 8/10

/-- LongRangeLead state (radard.py lines 259-281): six first-order filters and
the previous lead. -/
structure LongRangeLead where
  dRel : FirstOrderFilter
  vRel : FirstOrderFilter
  vLead : FirstOrderFilter
  vLeadK : FirstOrderFilter
  aLeadK : FirstOrderFilter
  aLeadTau : FirstOrderFilter
deriving Repr, DecidableEq, Inhabited

structure LongRangeLeadState where
  filters : LongRangeLead
  lead_last : Option LeadRecord
deriving Repr, DecidableEq, Inhabited

/-- LongRangeLead.reset (radard.py lines 274-281): forget the previous lead and
deinitialize every filter. -/
def LongRangeLeadState.reset (s : LongRangeLeadState) : LongRangeLeadState :=
  { filters :=
      { dRel := { s.filters.dRel with initialized := false }
        vRel := { s.filters.vRel with initialized := false }
        vLead := { s.filters.vLead with initialized := false }
        vLeadK := { s.filters.vLeadK with initialized := false }
        aLeadK := { s.filters.aLeadK with initialized := false }
        aLeadTau := { s.filters.aLeadTau with initialized := false } }
    lead_last := none }

/-- LongRangeLead.update (radard.py lines 283-316). -/
def LongRangeLeadState.update (s : LongRangeLeadState) (lead : LeadRecord) :
    LongRangeLeadState × LeadRecord :=
  let s1 :=
    if lead.status = false then s.reset
    else
      let lastTrips : Bool :=
        match s.lead_last with
        | some ll => ll.status &&
            (decide (|ll.dRel - lead.dRel| > interp lead.dRel LRL_DREL_BP LRL_D_DREL_MAX_V) ||
             decide (|ll.yRel - lead.yRel| > LRL_D_YREL_MAX))
        | none => false
      let needReset : Bool := decide (lead.checkSource = CheckSource.modelLead) ||
        decide (lead.dRel < LRL_DREL_BP.headD 0) || lastTrips
      let s2 := if needReset then s.reset else s
      let alpha := interp lead.dRel LRL_DREL_BP LRL_ALPHA_V
      { s2 with filters :=
        { dRel := (s2.filters.dRel.update_alpha alpha).update lead.dRel
          vRel := (s2.filters.vRel.update_alpha alpha).update lead.vRel
          vLead := (s2.filters.vLead.update_alpha alpha).update lead.vLead
          vLeadK := (s2.filters.vLeadK.update_alpha alpha).update lead.vLeadK
          aLeadK := (s2.filters.aLeadK.update_alpha alpha).update lead.aLeadK
          aLeadTau := (s2.filters.aLeadTau.update_alpha alpha).update lead.aLeadTau } }
  let s3 := { s1 with lead_last := some lead }
  let out :=
    if lead.status ∧ lead.checkSource ≠ CheckSource.modelLead then
      { lead with
        dRel := s3.filters.dRel.x
        vRel := s3.filters.vRel.x
        vLead := s3.filters.vLead.x
        vLeadK := s3.filters.vLeadK.x
        aLeadK := s3.filters.aLeadK.x
        aLeadTau := s3.filters.aLeadTau.x }
    else lead
  (s3, out)

/-! ## Radar fusion: path-adjacent lead partitioning (radard.py lines 161-220) -/

/-- Modelled from the spec: TRAJECTORY_SIZE (lane_planner.py, not in src) — the
fixed trajectory length of the vision model outputs. -/
def TRAJECTORY_SIZE : ℕ := 33

/-- MIN_LANE_PROB (radard.py line 26). -/
def MIN_LANE_PROB : ℚ := 6/10

/-- LEAD_PATH_DREL_MIN (radard.py line 22). -/
def LEAD_PATH_DREL_MIN : ℚ := 60

/-- Lane line polyline of the model output. -/
structure LaneLine where
  x : List ℚ
  y : List ℚ
deriving Repr, DecidableEq, Inhabited

/-- Vision model output slice used by get_path_adjacent_leads: predicted path
polyline and lane lines with their probabilities. -/
structure ModelData where
  position_x : List ℚ
  position_y : List ℚ
  laneLines : List LaneLine
  laneLineProbs : List ℚ
deriving Repr, DecidableEq, Inhabited

/-- Centerline synthesis of get_path_adjacent_leads (radard.py lines 165-183):
some (ll_x, c_y) when a lane-line-based centerline is available, none
otherwise. -/
def laneCenter (md : ModelData) (lane_width : ℚ) : Option (List ℚ × List ℚ) :=
  if lane_width > 0 ∧ md.laneLines.length = 4 ∧
      (md.laneLines.getD 1 default).x.length = TRAJECTORY_SIZE then
    let ll_x := (md.laneLines.getD 1 default).x
    let lll_y := (md.laneLines.getD 1 default).y
    let rll_y := (md.laneLines.getD 2 default).y
    let l_prob := md.laneLineProbs.getD 1 0
    let r_prob := md.laneLineProbs.getD 2 0
    if l_prob > MIN_LANE_PROB ∧ r_prob > MIN_LANE_PROB then
      some (ll_x, List.zipWith (fun a b => (a + b) / 2) lll_y rll_y)
    else if l_prob > MIN_LANE_PROB then
      some (ll_x, lll_y.map (fun a => a + lane_width / 2))
    else if r_prob > MIN_LANE_PROB then
      some (ll_x, rll_y.map (fun a => a - lane_width / 2))
    else none
  else none

/-- Per-cluster lead construction of the loop body of get_path_adjacent_leads
(radard.py lines 195-210): pick the path reference, derive dPath and the
tags, and build the annotated lead record.  When md is present the source
always binds md_x/md_y (the guard on line 185 starts with md is not None), so
the model-path reference only falls back to lane lines or the raw lateral
position per the conditions of line 196. -/
def mkAdjacentLead (md : ModelData) (cY : Option (List ℚ × List ℚ))
    (c : Cluster) : LeadRecord :=
  let md_x := md.position_x
  let md_y := md.position_y
  let pathTail := md_x.getLastD 0
  let dPathCheck : Bool :=
    decide (c.dRel ≤ pathTail) ||
      (cY.isSome && decide (pathTail - c.dRel <
        ((cY.getD ([], [])).1.getLastD 0) - c.dRel))
  let dPathSource :=
    if dPathCheck then
      (-c.yRel - interp c.dRel md_x md_y, CheckSource.modelPath)
    else
      match cY with
      | some (ll_x, c_y) => (-c.yRel - interp c.dRel ll_x c_y, CheckSource.modelLaneLines)
      | none => (-c.yRel, CheckSource.lowSpeedOverride)
  let dPath := dPathSource.1
  let checkSource := dPathSource.2
  let source := if c.dRel > 145 then LeadSource.vision else LeadSource.radar
  let ld := c.get_RadarState 0 source checkSource
  { ld with dPath := dPath, vLatSq := (10 * dPath) ^ 2 + c.dRel ^ 2 }

/-- Partition step of the cluster loop (radard.py lines 211-216): insert the
annotated lead into the center, left or right dict, keyed by |dPath|. -/
def adjacentStep (md : ModelData) (cY : Option (List ℚ × List ℚ)) (half_lane_width : ℚ)
    (acc : List (ℚ × LeadRecord) × List (ℚ × LeadRecord) × List (ℚ × LeadRecord))
    (c : Cluster) :
    List (ℚ × LeadRecord) × List (ℚ × LeadRecord) × List (ℚ × LeadRecord) :=
  let ld := mkAdjacentLead md cY c
  let dl := acc.1
  let dc := acc.2.1
  let dr := acc.2.2
  if |ld.dPath| < half_lane_width ∧ ld.vLeadK > -1 then
    (dl, dictInsert dc |ld.dPath| ld, dr)
  else if ld.dPath < 0 then
    (dictInsert dl |ld.dPath| ld, dc, dr)
  else
    (dl, dc, dictInsert dr |ld.dPath| ld)

/-- get_path_adjacent_leads (radard.py lines 161-220).  The error value models
the AttributeError the source raises when md is None and the cluster list is
non-empty (line 185 dereferences md after the short-circuit or). -/
def get_path_adjacent_leads (v_ego : ℚ) (mdOpt : Option ModelData)
    (lane_width : ℚ) (clusters : List Cluster) :
    Except Unit (List LeadRecord × List LeadRecord × List LeadRecord) :=
  if clusters = [] then .ok ([], [], [])
  else
    match mdOpt with
    | none => .error ()
    | some md =>
      let cY := laneCenter md lane_width
      let half_lane_width := lane_width / 2
      let dicts := clusters.foldl (adjacentStep md cY half_lane_width) ([], [], [])
      let dl := dicts.1
      let dc := dicts.2.1
      let dr := dicts.2.2
      let ll := (List.insertionSort (fun a b => a ≤ b) (dl.map Prod.fst)).map
        (fun k => assocGetD dl k default)
      let lr := (List.insertionSort (fun a b => a ≤ b) (dr.map Prod.fst)).map
        (fun k => assocGetD dr k default)
      let lc := List.insertionSort (fun a b => a.dRel ≤ b.dRel) (dc.map Prod.snd)
      .ok (ll, lc, lr)

/-! ## Key-set lemmas for the track table -/

theorem foldl_keys {κ β γ : Type} (step : List (κ × β) → γ → List (κ × β))
    (key : γ → κ)
    (hstep : ∀ ts p a, a ∈ (step ts p).map Prod.fst ↔ a ∈ ts.map Prod.fst ∨ a = key p)
    (l : List γ) (acc : List (κ × β)) (a : κ) :
    a ∈ (l.foldl step acc).map Prod.fst ↔ a ∈ acc.map Prod.fst ∨ a ∈ l.map key := by
  induction l generalizing acc with
  | nil => simp
  | cons x xs ih =>
    simp only [List.foldl_cons, List.map_cons, List.mem_cons]
    rw [ih, hstep]
    tauto

theorem mkArPts_keys (points : List RadarPoint) (a : ℤ) :
    a ∈ (mkArPts points).map Prod.fst ↔ a ∈ points.map RadarPoint.trackId := by
  unfold mkArPts
  have := foldl_keys (fun d pt => dictInsert d pt.trackId pt) RadarPoint.trackId
    (fun ts p b => dictInsert_keys ts p.trackId p b) points [] a
  simpa using this

theorem trackStep_keys (kp : KalmanParams) (v_ego_delayed : ℚ)
    (tracks : List (ℤ × Track)) (points : List RadarPoint) (a : ℤ) :
    a ∈ (trackStep kp v_ego_delayed tracks points).map Prod.fst ↔
      a ∈ points.map RadarPoint.trackId := by
  unfold trackStep
  rw [foldl_keys _ Prod.fst (fun ts p b => dictInsert_keys ts p.1 _ b)]
  rw [← mkArPts_keys points a]
  constructor
  · rintro (hk | hk)
    · simp only [List.mem_map] at hk
      obtain ⟨p, hp, rfl⟩ := hk
      have := (List.mem_filter.mp hp).2
      rw [dictHasKey_iff] at this
      exact this
    · exact hk
  · exact Or.inr

/-- C4: after every tick of the track-table step, a track id survives exactly
when it occurs in the current radar reading; in particular every id present
before the tick but absent from the reading is dropped. -/
theorem C4_track_lifecycle (kp : KalmanParams) (v_ego_delayed : ℚ)
    (tracks : List (ℤ × Track)) (points : List RadarPoint) (id : ℤ) :
    (id ∈ (trackStep kp v_ego_delayed tracks points).map Prod.fst ↔
        id ∈ points.map RadarPoint.trackId) ∧
      (id ∈ tracks.map Prod.fst → id ∉ points.map RadarPoint.trackId →
        id ∉ (trackStep kp v_ego_delayed tracks points).map Prod.fst) := by
  refine ⟨trackStep_keys kp v_ego_delayed tracks points id, ?_⟩
  intro _ habs hmem
  exact habs ((trackStep_keys kp v_ego_delayed tracks points id).mp hmem)

/-- C7: with exactly one track, the clustering primitive is bypassed
(usedCentroid stays false, so the documented cluster_points_centroid hang
cannot occur) and the result is a single cluster holding that track. -/
theorem C7_single_track_no_clustering (clusterFn : List (List ℚ) → List ℕ)
    (i : ℤ) (t : Track) :
    computeClusters clusterFn [(i, t)] =
      ⟨[some (Cluster.empty.add t)], [0], false⟩ := by
  simp [computeClusters, List.insertionSort, List.orderedInsert, assocGetD]

/-- C5: for a status-true lead whose checkSource is modelLead, the long-range
smoother passes all six kinematic fields through unchanged. -/
theorem C5_modelLead_passthrough (s : LongRangeLeadState) (lead : LeadRecord)
    (h1 : lead.status = true) (h2 : lead.checkSource = CheckSource.modelLead) :
    ((s.update lead).2).dRel = lead.dRel ∧ ((s.update lead).2).vRel = lead.vRel ∧
      ((s.update lead).2).vLead = lead.vLead ∧ ((s.update lead).2).vLeadK = lead.vLeadK ∧
      ((s.update lead).2).aLeadK = lead.aLeadK ∧ ((s.update lead).2).aLeadTau = lead.aLeadTau := by
  have hout : (s.update lead).2 = lead := by
    simp [LongRangeLeadState.update, h2]
  rw [hout]
  exact ⟨rfl, rfl, rfl, rfl, rfl, rfl⟩

/-- Witness for C5 at a concrete state and lead. -/
theorem C5_modelLead_passthrough_witness :
    let lead : LeadRecord :=
      { status := true, source := LeadSource.radar, checkSource := CheckSource.modelLead,
        dRel := 40, yRel := 1, vRel := -5, vLead := 25, vLeadK := 24, aLeadK := -1/2,
        aLeadTau := 3/2, modelProb := 9/10, dPath := 0, vLatSq := 0 }
    lead.status = true ∧ lead.checkSource = CheckSource.modelLead ∧
      ((((default : LongRangeLeadState).update lead).2).dRel = lead.dRel ∧
        (((default : LongRangeLeadState).update lead).2).vRel = lead.vRel ∧
        (((default : LongRangeLeadState).update lead).2).vLead = lead.vLead ∧
        (((default : LongRangeLeadState).update lead).2).vLeadK = lead.vLeadK ∧
        (((default : LongRangeLeadState).update lead).2).aLeadK = lead.aLeadK ∧
        (((default : LongRangeLeadState).update lead).2).aLeadTau = lead.aLeadTau) :=
  ⟨rfl, rfl, C5_modelLead_passthrough _ _ rfl rfl⟩

/-- C9: on any non-empty cluster list the vision-to-cluster association always
returns (no exception), and the Laplacian scale is clamped strictly above
zero for every standard deviation, including zero. -/
theorem C9_match_total (v_ego : ℚ) (lead : VisionLead) (clusters : List Cluster)
    (h : clusters ≠ []) :
    (∃ r, match_vision_to_cluster v_ego lead clusters = .ok r) ∧
      ∀ b : ℚ, 1/10000 ≤ laplacianScale b ∧ 0 < laplacianScale b := by
  constructor
  · cases clusters with
    | nil => exact absurd rfl h
    | cons c cs =>
      simp only [match_vision_to_cluster, pyMaxBy]
      split
      · exact ⟨_, rfl⟩
      · exact ⟨_, rfl⟩
  · intro b
    refine ⟨le_max_right _ _, lt_of_lt_of_le (by norm_num) (le_max_right _ _)⟩

/-- Witness for C9 at a one-cluster list whose vision lead has all standard
deviations equal to zero. -/
theorem C9_match_total_witness :
    ([Cluster.empty.add default] : List Cluster) ≠ [] ∧
      ((∃ r, match_vision_to_cluster 0
          { x0 := 10, y0 := 0, v0 := 0, xStd0 := 0, yStd0 := 0, vStd0 := 0, prob := 1 }
          [Cluster.empty.add default] = .ok r) ∧
        ∀ b : ℚ, 1/10000 ≤ laplacianScale b ∧ 0 < laplacianScale b) :=
  ⟨by simp, C9_match_total 0 _ _ (by simp)⟩

/-! ## Lemmas about the path-adjacent partitioning -/

theorem dictInsert_of_not_mem {κ β : Type} [DecidableEq κ] {l : List (κ × β)} {k : κ}
    (v : β) (h : k ∉ l.map Prod.fst) : dictInsert l k v = l ++ [(k, v)] := by
  induction l with
  | nil => rfl
  | cons p rest ih =>
    obtain ⟨k0, v0⟩ := p
    have hk0 : k0 ≠ k := by
      intro hk; exact h (by simp [hk])
    unfold dictInsert
    rw [if_neg hk0, ih (fun hm => h (by simp [hm]))]
    simp

theorem assoc_map_get {β : Type} [Inhabited β] (d : List (ℚ × β))
    (h : (d.map Prod.fst).Nodup) :
    (d.map Prod.fst).map (fun k => assocGetD d k default) = d.map Prod.snd := by
  induction d with
  | nil => rfl
  | cons p rest ih =>
    obtain ⟨k0, v0⟩ := p
    simp only [List.map_cons]
    have hnd := h
    simp only [List.map_cons, List.nodup_cons] at hnd
    congr 1
    · simp [assocGetD]
    · have : ∀ k ∈ rest.map Prod.fst,
          assocGetD ((k0, v0) :: rest) k default = assocGetD rest k default := by
        intro k hk
        have : k0 ≠ k := fun he => hnd.1 (he ▸ hk)
        simp [assocGetD, this]
      rw [List.map_congr_left this, ih hnd.2]

theorem assocGetD_prop {β : Type} (P : ℚ → β → Prop) (d : List (ℚ × β)) (dflt : β)
    (h : ∀ p ∈ d, P p.1 p.2) {k : ℚ} (hk : k ∈ d.map Prod.fst) :
    P k (assocGetD d k dflt) := by
  induction d with
  | nil => simp at hk
  | cons p rest ih =>
    obtain ⟨k0, v0⟩ := p
    unfold assocGetD
    split
    case isTrue he => exact he ▸ h (k0, v0) (by simp)
    case isFalse he =>
      refine ih (fun q hq => h q (by simp [hq])) ?_
      simp only [List.map_cons, List.mem_cons] at hk
      rcases hk with rfl | hk
      · exact absurd rfl he
      · exact hk

/-- Partition key of a cluster: the |dPath| used to key the three dicts. -/
def adjKey (md : ModelData) (cY : Option (List ℚ × List ℚ)) (c : Cluster) : ℚ :=
  |(mkAdjacentLead md cY c).dPath|

/-- Dict entry produced for a cluster. -/
def adjEntry (md : ModelData) (cY : Option (List ℚ × List ℚ)) (c : Cluster) :
    ℚ × LeadRecord :=
  (adjKey md cY c, mkAdjacentLead md cY c)

/-- Center classifier of the partition loop. -/
def adjCenter (md : ModelData) (cY : Option (List ℚ × List ℚ)) (half : ℚ)
    (c : Cluster) : Bool :=
  decide (|(mkAdjacentLead md cY c).dPath| < half ∧ (mkAdjacentLead md cY c).vLeadK > -1)

/-- Left classifier of the partition loop. -/
def adjLeft (md : ModelData) (cY : Option (List ℚ × List ℚ)) (half : ℚ)
    (c : Cluster) : Bool :=
  !adjCenter md cY half c && decide ((mkAdjacentLead md cY c).dPath < 0)

/-- Right classifier of the partition loop. -/
def adjRight (md : ModelData) (cY : Option (List ℚ × List ℚ)) (half : ℚ)
    (c : Cluster) : Bool :=
  !adjCenter md cY half c && !decide ((mkAdjacentLead md cY c).dPath < 0)

theorem adjacentStep_eq (md : ModelData) (cY : Option (List ℚ × List ℚ)) (half : ℚ)
    (dl dc dr : List (ℚ × LeadRecord)) (c : Cluster) :
    adjacentStep md cY half (dl, dc, dr) c =
      if adjCenter md cY half c then
        (dl, dictInsert dc (adjKey md cY c) (mkAdjacentLead md cY c), dr)
      else if decide ((mkAdjacentLead md cY c).dPath < 0) then
        (dictInsert dl (adjKey md cY c) (mkAdjacentLead md cY c), dc, dr)
      else
        (dl, dc, dictInsert dr (adjKey md cY c) (mkAdjacentLead md cY c)) := by
  simp only [adjacentStep, adjCenter, adjKey]
  by_cases h1 : |(mkAdjacentLead md cY c).dPath| < half ∧ (mkAdjacentLead md cY c).vLeadK > -1
  · simp [h1]
  · by_cases h2 : (mkAdjacentLead md cY c).dPath < 0 <;> simp [h1, h2]

theorem adjacent_foldl (md : ModelData) (cY : Option (List ℚ × List ℚ)) (half : ℚ)
    (cs : List Cluster) :
    ∀ (dl dc dr : List (ℚ × LeadRecord)),
      (∀ c ∈ cs, adjKey md cY c ∉ dl.map Prod.fst ∧ adjKey md cY c ∉ dc.map Prod.fst ∧
        adjKey md cY c ∉ dr.map Prod.fst) →
      (cs.map (adjKey md cY)).Nodup →
      cs.foldl (adjacentStep md cY half) (dl, dc, dr) =
        (dl ++ (cs.filter (adjLeft md cY half)).map (adjEntry md cY),
         dc ++ (cs.filter (adjCenter md cY half)).map (adjEntry md cY),
         dr ++ (cs.filter (adjRight md cY half)).map (adjEntry md cY)) := by
  induction cs with
  | nil => intro dl dc dr _ _; simp
  | cons c rest ih =>
    intro dl dc dr hfresh hnd
    have hc := hfresh c (by simp)
    have hndc : adjKey md cY c ∉ rest.map (adjKey md cY) := by
      simp only [List.map_cons, List.nodup_cons] at hnd
      exact hnd.1
    have hndr : (rest.map (adjKey md cY)).Nodup := by
      simp only [List.map_cons, List.nodup_cons] at hnd
      exact hnd.2
    simp only [List.foldl_cons]
    rw [adjacentStep_eq]
    by_cases h1 : adjCenter md cY half c
    · rw [if_pos h1, dictInsert_of_not_mem _ hc.2.1]
      have hL : adjLeft md cY half c = false := by simp [adjLeft, h1]
      have hR : adjRight md cY half c = false := by simp [adjRight, h1]
      rw [ih dl (dc ++ [(adjKey md cY c, mkAdjacentLead md cY c)]) dr ?fresh hndr]
      · simp only [List.filter_cons, h1, hL, hR]
        simp [adjEntry, List.append_assoc]
      case fresh =>
        intro q hq
        have hfq := hfresh q (by simp [hq])
        have hne : adjKey md cY q ≠ adjKey md cY c := by
          intro he
          exact hndc (he ▸ List.mem_map_of_mem (adjKey md cY) hq)
        refine ⟨hfq.1, ?_, hfq.2.2⟩
        simp only [List.map_append, List.mem_append]
        rintro (hm | hm)
        · exact hfq.2.1 hm
        · simp at hm
          exact hne hm
    · rw [if_neg (by simpa using h1)]
      by_cases h2 : (mkAdjacentLead md cY c).dPath < 0
      · rw [if_pos (by simpa using h2), dictInsert_of_not_mem _ hc.1]
        have hL : adjLeft md cY half c = true := by
          simp [adjLeft, h1, h2]
        have hC : adjCenter md cY half c = false := by simpa using h1
        have hR : adjRight md cY half c = false := by
          simp [adjRight, h1, h2]
        rw [ih (dl ++ [(adjKey md cY c, mkAdjacentLead md cY c)]) dc dr ?fresh2 hndr]
        · simp only [List.filter_cons, hL, hC, hR]
          simp [adjEntry, List.append_assoc]
        case fresh2 =>
          intro q hq
          have hfq := hfresh q (by simp [hq])
          have hne : adjKey md cY q ≠ adjKey md cY c := by
            intro he
            exact hndc (he ▸ List.mem_map_of_mem (adjKey md cY) hq)
          refine ⟨?_, hfq.2.1, hfq.2.2⟩
          simp only [List.map_append, List.mem_append]
          rintro (hm | hm)
          · exact hfq.1 hm
          · simp at hm
            exact hne hm
      · rw [if_neg (by simpa using h2), dictInsert_of_not_mem _ hc.2.2]
        have hL : adjLeft md cY half c = false := by
          simp [adjLeft, h1, h2]
        have hC : adjCenter md cY half c = false := by simpa using h1
        have hR : adjRight md cY half c = true := by
          simp [adjRight, h1, h2]
        rw [ih dl dc (dr ++ [(adjKey md cY c, mkAdjacentLead md cY c)]) ?fresh3 hndr]
        · simp only [List.filter_cons, hL, hC, hR]
          simp [adjEntry, List.append_assoc]
        case fresh3 =>
          intro q hq
          have hfq := hfresh q (by simp [hq])
          have hne : adjKey md cY q ≠ adjKey md cY c := by
            intro he
            exact hndc (he ▸ List.mem_map_of_mem (adjKey md cY) hq)
          refine ⟨hfq.1, hfq.2.1, ?_⟩
          simp only [List.map_append, List.mem_append]
          rintro (hm | hm)
          · exact hfq.2.2 hm
          · simp at hm
            exact hne hm

instance : IsTotal LeadRecord (fun a b => a.dRel ≤ b.dRel) :=
  ⟨fun a b => le_total a.dRel b.dRel⟩

instance : IsTrans LeadRecord (fun a b => a.dRel ≤ b.dRel) :=
  ⟨fun _ _ _ h1 h2 => le_trans h1 h2⟩

theorem adj_partition_perm (md : ModelData) (cY : Option (List ℚ × List ℚ))
    (half : ℚ) (clusters : List Cluster) :
    (clusters.filter (adjLeft md cY half) ++ clusters.filter (adjCenter md cY half) ++
      clusters.filter (adjRight md cY half)).Perm clusters := by
  induction clusters with
  | nil => simp
  | cons c cs ih =>
    by_cases hC : adjCenter md cY half c
    · have hL : adjLeft md cY half c = false := by simp [adjLeft, hC]
      have hR : adjRight md cY half c = false := by simp [adjRight, hC]
      simp only [List.filter_cons, hC, hL, hR, if_true, Bool.false_eq_true, if_false]
      have h1 : cs.filter (adjLeft md cY half) ++ c :: cs.filter (adjCenter md cY half) ++
          cs.filter (adjRight md cY half) =
          cs.filter (adjLeft md cY half) ++ c :: (cs.filter (adjCenter md cY half) ++
            cs.filter (adjRight md cY half)) := by
        simp [List.append_assoc]
      rw [h1]
      refine List.perm_middle.trans (List.Perm.cons c ?_)
      rw [← List.append_assoc]
      exact ih
    · have hC0 : adjCenter md cY half c = false := by simpa using hC
      by_cases hq : (mkAdjacentLead md cY c).dPath < 0
      · have hL : adjLeft md cY half c = true := by simp [adjLeft, hC0, hq]
        have hR : adjRight md cY half c = false := by simp [adjRight, hC0, hq]
        simp only [List.filter_cons, hC0, hL, hR, if_true, Bool.false_eq_true, if_false]
        simpa using List.Perm.cons c ih
      · have hL : adjLeft md cY half c = false := by simp [adjLeft, hC0, hq]
        have hR : adjRight md cY half c = true := by simp [adjRight, hC0, hq]
        simp only [List.filter_cons, hC0, hL, hR, if_true, Bool.false_eq_true, if_false]
        have h1 : cs.filter (adjLeft md cY half) ++ cs.filter (adjCenter md cY half) ++
            c :: cs.filter (adjRight md cY half) =
            (cs.filter (adjLeft md cY half) ++ cs.filter (adjCenter md cY half)) ++
              c :: cs.filter (adjRight md cY half) := by
          simp [List.append_assoc]
        rw [h1]
        refine List.perm_middle.trans (List.Perm.cons c ?_)
        rw [List.append_assoc]
        rw [← List.append_assoc]
        exact ih

theorem sorted_map_of_key {β : Type} (f : ℚ → β) (key : β → ℚ) :
    ∀ (l : List ℚ), l.Pairwise (fun a b => a ≤ b) → (∀ k ∈ l, key (f k) = k) →
      (l.map f).Pairwise (fun a b : β => key a ≤ key b)
  | [], _, _ => by simp
  | x :: t, hl, hkey => by
    rcases List.pairwise_cons.mp hl with ⟨hx, ht⟩
    simp only [List.map_cons]
    refine List.pairwise_cons.mpr
      ⟨?_, sorted_map_of_key f key t ht (fun k hk => hkey k (by simp [hk]))⟩
    intro b hb
    obtain ⟨k, hk, rfl⟩ := List.mem_map.mp hb
    rw [hkey x (by simp), hkey k (by simp [hk])]
    exact hx k hk

theorem sideList_spec (d : List (ℚ × LeadRecord))
    (hk : ∀ p ∈ d, p.1 = |p.2.dPath|) (hnd : (d.map Prod.fst).Nodup) :
    ((List.insertionSort (fun a b => a ≤ b) (d.map Prod.fst)).map
        (fun k => assocGetD d k default)).Perm (d.map Prod.snd) ∧
      List.Sorted (fun a b : LeadRecord => |a.dPath| ≤ |b.dPath|)
        ((List.insertionSort (fun a b => a ≤ b) (d.map Prod.fst)).map
          (fun k => assocGetD d k default)) := by
  have hperm : (List.insertionSort (fun a b => a ≤ b) (d.map Prod.fst)).Perm
      (d.map Prod.fst) := List.perm_insertionSort _ _
  constructor
  · exact (hperm.map _).trans (by rw [assoc_map_get d hnd])
  · have hs : List.Sorted (fun a b => a ≤ b)
        (List.insertionSort (fun a b => a ≤ b) (d.map Prod.fst)) :=
      List.sorted_insertionSort _ _
    have hkey : ∀ k ∈ List.insertionSort (fun a b => a ≤ b) (d.map Prod.fst),
        |(assocGetD d k default).dPath| = k := by
      intro k hkm
      have hmem : k ∈ d.map Prod.fst := hperm.mem_iff.mp hkm
      exact (@assocGetD_prop LeadRecord (fun k v => k = |v.dPath|) d default hk k hmem).symm
    exact sorted_map_of_key (fun k => assocGetD d k default)
      (fun v => |v.dPath|) _ hs hkey

/-- C6 (amended): when the model data is present and the |dPath| partition keys
of the clusters are pairwise distinct, get_path_adjacent_leads returns three
lists whose concatenation is a permutation of the per-cluster leads, every
center entry satisfies |dPath| < laneWidth/2, the center list is sorted by
dRel and the side lists by |dPath|.  (Without the distinct-key hypothesis the
dict keyed by |dPath| drops colliding clusters: see the counterexample.) -/
theorem C6_partition_amended (v_ego lane_width : ℚ) (md : ModelData)
    (clusters : List Cluster)
    (hkeys : (clusters.map (adjKey md (laneCenter md lane_width))).Nodup) :
    ∃ ll lc lr,
      get_path_adjacent_leads v_ego (some md) lane_width clusters = .ok (ll, lc, lr) ∧
        (∀ ld ∈ lc, |ld.dPath| < lane_width / 2) ∧
        (ll ++ lc ++ lr).Perm
          (clusters.map (mkAdjacentLead md (laneCenter md lane_width))) ∧
        List.Sorted (fun a b : LeadRecord => a.dRel ≤ b.dRel) lc ∧
        List.Sorted (fun a b : LeadRecord => |a.dPath| ≤ |b.dPath|) ll ∧
        List.Sorted (fun a b : LeadRecord => |a.dPath| ≤ |b.dPath|) lr := by
  by_cases hcs : clusters = []
  · subst hcs
    exact ⟨[], [], [], by simp [get_path_adjacent_leads], by simp, by simp, by
      simp [List.Sorted], by simp [List.Sorted], by simp [List.Sorted]⟩
  · set cY := laneCenter md lane_width with hcY
    set half := lane_width / 2 with hhalf
    have hfold := adjacent_foldl md cY half clusters [] [] [] (by simp) hkeys
    simp only [List.nil_append] at hfold
    set dl := (clusters.filter (adjLeft md cY half)).map (adjEntry md cY) with hdl
    set dc := (clusters.filter (adjCenter md cY half)).map (adjEntry md cY) with hdc
    set dr := (clusters.filter (adjRight md cY half)).map (adjEntry md cY) with hdr
    have hkdl : ∀ p ∈ dl, p.1 = |p.2.dPath| := by
      intro p hp
      rw [hdl] at hp
      simp only [List.mem_map] at hp
      obtain ⟨c, _, rfl⟩ := hp
      rfl
    have hkdr : ∀ p ∈ dr, p.1 = |p.2.dPath| := by
      intro p hp
      rw [hdr] at hp
      simp only [List.mem_map] at hp
      obtain ⟨c, _, rfl⟩ := hp
      rfl
    have hfstdl : dl.map Prod.fst = (clusters.filter (adjLeft md cY half)).map (adjKey md cY) := by
      rw [hdl]
      simp [adjEntry, Function.comp]
    have hfstdr : dr.map Prod.fst = (clusters.filter (adjRight md cY half)).map (adjKey md cY) := by
      rw [hdr]
      simp [adjEntry, Function.comp]
    have hnddl : (dl.map Prod.fst).Nodup := by
      rw [hfstdl]
      exact List.Nodup.sublist ((List.filter_sublist _).map _) hkeys
    have hnddr : (dr.map Prod.fst).Nodup := by
      rw [hfstdr]
      exact List.Nodup.sublist ((List.filter_sublist _).map _) hkeys
    have hsl := sideList_spec dl hkdl hnddl
    have hsr := sideList_spec dr hkdr hnddr
    refine ⟨(List.insertionSort (fun a b => a ≤ b) (dl.map Prod.fst)).map
        (fun k => assocGetD dl k default),
      List.insertionSort (fun a b : LeadRecord => a.dRel ≤ b.dRel) (dc.map Prod.snd),
      (List.insertionSort (fun a b => a ≤ b) (dr.map Prod.fst)).map
        (fun k => assocGetD dr k default),
      ?_, ?_, ?_, ?_, ?_, ?_⟩
    · simp only [get_path_adjacent_leads, if_neg hcs]
      rw [hfold]
    · intro ld hld
      have hmem : ld ∈ dc.map Prod.snd := by
        have := (List.perm_insertionSort (fun a b : LeadRecord => a.dRel ≤ b.dRel)
          (dc.map Prod.snd)).mem_iff.mp hld
        exact this
      rw [hdc] at hmem
      simp only [List.map_map, List.mem_map] at hmem
      obtain ⟨c, hcf, rfl⟩ := hmem
      have hc : adjCenter md cY half c = true := (List.mem_filter.mp hcf).2
      simp only [adjCenter, decide_eq_true_eq] at hc
      simpa [adjEntry, adjKey] using hc.1
    · have hpc : (List.insertionSort (fun a b : LeadRecord => a.dRel ≤ b.dRel)
          (dc.map Prod.snd)).Perm (dc.map Prod.snd) := List.perm_insertionSort _ _
      refine ((hsl.1.append hpc).append hsr.1).trans ?_
      have hml : dl.map Prod.snd =
          (clusters.filter (adjLeft md cY half)).map (mkAdjacentLead md cY) := by
        rw [hdl]; simp [adjEntry, Function.comp]
      have hmc : dc.map Prod.snd =
          (clusters.filter (adjCenter md cY half)).map (mkAdjacentLead md cY) := by
        rw [hdc]; simp [adjEntry, Function.comp]
      have hmr : dr.map Prod.snd =
          (clusters.filter (adjRight md cY half)).map (mkAdjacentLead md cY) := by
        rw [hdr]; simp [adjEntry, Function.comp]
      rw [hml, hmc, hmr, ← List.map_append, ← List.map_append]
      exact List.Perm.map _ (adj_partition_perm md cY half clusters)
    · exact List.sorted_insertionSort _ _
    · exact hsl.2
    · exact hsr.2

/-- Total number of leads over the three partition lists (0 for the error
case). -/
def adjacentLengths (r : Except Unit (List LeadRecord × List LeadRecord × List LeadRecord)) : ℕ :=
  match r with
  | .error _ => 0
  | .ok (ll, lc, lr) => ll.length + lc.length + lr.length

/-- Counterexample to C6 as stated: two distinct clusters at dRel 10 and 20
share the partition key |dPath| = 3, so the dict keyed by |dPath| keeps only
one of them — the three lists together hold a single lead while the input
has two clusters, so the union of the three lists does not equal the input
cluster set. -/
theorem C6_partition_counterexample :
    let t1 : Track := { dRel := 10, yRel := -3, vRel := 0, vLead := 0, vLeadK := -5
                        aLeadK := 0, aLeadTau := 0, kfV := 0, kfA := 0, cnt := 1
                        measured := true }
    let t2 : Track := { t1 with dRel := 20 }
    let md : ModelData := { position_x := [0, 100], position_y := [0, 0]
                            laneLines := [], laneLineProbs := [] }
    adjacentLengths (get_path_adjacent_leads 0 (some md) 3
      [Cluster.mk [t1], Cluster.mk [t2]]) = 1 ∧
      ([Cluster.mk [t1], Cluster.mk [t2]] : List Cluster).length = 2 := by
  constructor
  · norm_num [get_path_adjacent_leads, laneCenter, TRAJECTORY_SIZE, adjacentStep,
      mkAdjacentLead, Cluster.get_RadarState, Cluster.dRel, Cluster.yRel, Cluster.vRel,
      Cluster.vLead, Cluster.vLeadK, Cluster.aLeadK, Cluster.aLeadTau, qMean, interp,
      interpFrom, dictInsert, assocGetD, adjacentLengths, List.insertionSort,
      List.orderedInsert, adjKey, adjEntry]
    simp
  · rfl

/-- Witness for C6 (amended) at a concrete model and two clusters with
distinct partition keys. -/
theorem C6_partition_amended_witness :
    let t1 : Track := { dRel := 10, yRel := -3, vRel := 0, vLead := 0, vLeadK := -5
                        aLeadK := 0, aLeadTau := 0, kfV := 0, kfA := 0, cnt := 1
                        measured := true }
    let t2 : Track := { t1 with dRel := 20, yRel := 2 }
    let md : ModelData := { position_x := [0, 100], position_y := [0, 0]
                            laneLines := [], laneLineProbs := [] }
    (([Cluster.mk [t1], Cluster.mk [t2]] : List Cluster).map
        (adjKey md (laneCenter md 3))).Nodup ∧
      (∃ ll lc lr,
        get_path_adjacent_leads 0 (some md) 3 [Cluster.mk [t1], Cluster.mk [t2]] =
            .ok (ll, lc, lr) ∧
          (∀ ld ∈ lc, |ld.dPath| < 3 / 2) ∧
          (ll ++ lc ++ lr).Perm
            (([Cluster.mk [t1], Cluster.mk [t2]] : List Cluster).map
              (mkAdjacentLead md (laneCenter md 3))) ∧
          List.Sorted (fun a b : LeadRecord => a.dRel ≤ b.dRel) lc ∧
          List.Sorted (fun a b : LeadRecord => |a.dPath| ≤ |b.dPath|) ll ∧
          List.Sorted (fun a b : LeadRecord => |a.dPath| ≤ |b.dPath|) lr) := by
  refine ⟨?_, C6_partition_amended 0 3 _ _ ?_⟩ <;>
    norm_num [laneCenter, TRAJECTORY_SIZE, mkAdjacentLead, Cluster.get_RadarState,
      Cluster.dRel, Cluster.yRel, Cluster.vRel, Cluster.vLead, Cluster.vLeadK,
      Cluster.aLeadK, Cluster.aLeadTau, qMean, interp, interpFrom, adjKey, adjEntry]

/-! ## Actuator controller: data model (selfdrive/car/gm/carcontroller.py) -/

/-- Modelled from the spec: DT_CTRL (common/realtime.py, not in src) — the
100 Hz control-loop period 0.01 s. -/
def DT_CTRL : ℚ := 1/100

/-- Modelled from the spec: CV.MPH_TO_MS (selfdrive/config.py Conversions, not
in src) — exactly 0.44704 m/s per mph. -/
def MPH_TO_MS : ℚ := 44704/100000

/-- Modelled from the spec: CV.KPH_TO_MS = 1/3.6. -/
def KPH_TO_MS : ℚ := 10/36

/-- Modelled from the spec: CV.MS_TO_KPH = 3.6. -/
def MS_TO_KPH : ℚ := 36/10

/-- Modelled from the spec: ACCELERATION_DUE_TO_GRAVITY
(selfdrive/controls/lib/vehicle_model.py, not in src), 9.81 m/s^2. -/
def ACCELERATION_DUE_TO_GRAVITY : ℚ := 981/100

/-- ACCEL_PITCH_FACTOR_BP (carcontroller.py line 17). -/
def ACCEL_PITCH_FACTOR_BP : List ℚ := [5, 10]

/-- ACCEL_PITCH_FACTOR_V (carcontroller.py line 18). -/
def ACCEL_PITCH_FACTOR_V : List ℚ := [0, 1]

/-- ONE_PEDAL_ACCEL_PITCH_FACTOR_BP (carcontroller.py line 20). -/
def ONE_PEDAL_ACCEL_PITCH_FACTOR_BP : List ℚ := [4, 8]

/-- ONE_PEDAL_ACCEL_PITCH_FACTOR_V (carcontroller.py line 21). -/
def ONE_PEDAL_ACCEL_PITCH_FACTOR_V : List ℚ := [4/10, 1]

/-- ONE_PEDAL_ACCEL_PITCH_FACTOR_INCLINE_V (carcontroller.py line 22). -/
def ONE_PEDAL_ACCEL_PITCH_FACTOR_INCLINE_V : List ℚ := [2/10, 1]

/-- ONE_PEDAL_MODE_DECEL_BP (carcontroller.py lines 24-28), mph converted to
m/s. -/
def ONE_PEDAL_MODE_DECEL_BP : List (List ℚ) :=
  [[(1/2) * MPH_TO_MS, 6 * MPH_TO_MS],
   [4 * MPH_TO_MS, 12 * MPH_TO_MS, 30 * MPH_TO_MS],
   [4 * MPH_TO_MS, 16 * MPH_TO_MS, 30 * MPH_TO_MS]]

/-- ONE_PEDAL_MODE_DECEL_V (carcontroller.py lines 29-33). -/
def ONE_PEDAL_MODE_DECEL_V : List (List ℚ) :=
  [[-1, -11/10], [-13/10, -17/10, -18/10], [-17/10, -26/10, -24/10]]

/-- ONE_PEDAL_MIN_SPEED (carcontroller.py line 34). -/
def ONE_PEDAL_MIN_SPEED : ℚ := 21/10

/-- ONE_PEDAL_DECEL_RATE_LIMIT_UP = 0.8 * DT_CTRL * 4 (carcontroller.py line 35). -/
def ONE_PEDAL_DECEL_RATE_LIMIT_UP : ℚ := (8/10) * DT_CTRL * 4

/-- ONE_PEDAL_DECEL_RATE_LIMIT_DOWN = 0.8 * DT_CTRL * 4 (carcontroller.py line 36). -/
def ONE_PEDAL_DECEL_RATE_LIMIT_DOWN : ℚ := (8/10) * DT_CTRL * 4

/-- ONE_PEDAL_MAX_DECEL (carcontroller.py line 38). -/
def ONE_PEDAL_MAX_DECEL : ℚ := -7/2

/-- ONE_PEDAL_SPEED_ERROR_FACTOR_BP (carcontroller.py line 39). -/
def ONE_PEDAL_SPEED_ERROR_FACTOR_BP : List ℚ := [3/2, 20]

/-- ONE_PEDAL_SPEED_ERROR_FACTOR_V (carcontroller.py line 40). -/
def ONE_PEDAL_SPEED_ERROR_FACTOR_V : List ℚ := [4/10, 2/10]

/-- ONE_PEDAL_LEAD_ACCEL_RATE_LOCKOUT_T (carcontroller.py line 42). -/
def ONE_PEDAL_LEAD_ACCEL_RATE_LOCKOUT_T : ℚ := 6/10

/-- Modelled from the spec: AccState.STANDSTILL (selfdrive/car/gm/values.py,
not in src); only equality with pcm_acc_status matters. -/
def AccState_STANDSTILL : ℤ := 4

inductive VisualAlert where
  | noAlert
  | fcw
  | steerRequired
  | ldw
deriving Repr, DecidableEq, Inhabited

structure Actuators where
  steer : ℚ
  accel : ℚ
  accelPitchCompensated : ℚ
deriving Repr, DecidableEq, Inhabited

/-- Fields of CS.out (the upstream car.CarState snapshot) read by the
controller. -/
structure CSOutSnap where
  vEgo : ℚ
  aEgo : ℚ
  steeringTorque : ℚ
  steerWarning : Bool
  steerError : Bool
  gasPressed : Bool
  gearShifter : String
  brake : ℚ
  cruiseStateEnabled : Bool
deriving Repr, DecidableEq, Inhabited

/-- Tick-scoped CarState snapshot: every CS field the controller reads.
coasting_long_plan_coast models the test CS.coasting_long_plan in
COAST_SOURCES (COAST_SOURCES lives in longitudinal_planner.py, not in src);
follow_level models CS.get_follow_level(). -/
structure CSIn where
  out : CSOutSnap
  lka_steering_cmd_counter : ℤ
  pause_long_on_gas_press : Bool
  lkMode : Bool
  lane_change_steer_factor : ℚ
  vEgo : ℚ
  one_pedal_mode_active : Bool
  one_pedal_mode_op_braking_allowed : Bool
  coast_one_pedal_mode_active : Bool
  engineRPM : ℚ
  coasting_lead_v : ℚ
  coasting_lead_d : ℚ
  tr : ℚ
  lead_v_rel_long_gas_lockout_bp : List ℚ
  lead_v_rel_long_gas_lockout_v : List ℚ
  lead_v_long_gas_lockout_bp : List ℚ
  lead_v_long_gas_lockout_v : List ℚ
  lead_ttc_long_gas_lockout_bp : List ℚ
  lead_ttc_long_gas_lockout_v : List ℚ
  lead_tr_long_gas_lockout_bp : List ℚ
  lead_tr_long_gas_lockout_v : List ℚ
  lead_d_long_gas_lockout_bp : List ℚ
  lead_d_long_gas_lockout_v : List ℚ
  lead_v_rel_long_brake_lockout_bp : List ℚ
  lead_v_rel_long_brake_lockout_v : List ℚ
  lead_v_long_brake_lockout_bp : List ℚ
  lead_v_long_brake_lockout_v : List ℚ
  lead_ttc_long_brake_lockout_bp : List ℚ
  lead_ttc_long_brake_lockout_v : List ℚ
  lead_tr_long_brake_lockout_bp : List ℚ
  lead_tr_long_brake_lockout_v : List ℚ
  lead_d_long_brake_lockout_bp : List ℚ
  lead_d_long_brake_lockout_v : List ℚ
  gear_shifter_ev : ℤ
  one_pedal_dl_coasting_enabled : Bool
  pitch : ℚ
  one_pedal_brake_mode : ℕ
  angle_steers : ℚ
  one_pedal_angle_steers_cutoff_bp : List ℚ
  coasting_enabled : Bool
  no_friction_braking : Bool
  coasting_long_plan_coast : Bool
  speed_limit : ℚ
  speed_limit_active : Bool
  v_cruise_kph : ℚ
  coasting_over_speed_vEgo_BP_0 : List ℚ
  coasting_over_speed_vEgo_BP_1 : List ℚ
  coasting_over_speed_regen_vEgo_BP_0 : List ℚ
  coasting_over_speed_regen_vEgo_BP_1 : List ℚ
  coasting_over_speed_vEgo_BP_BP : List ℚ
  coasting_brake_over_speed_enabled : Bool
  showBrakeIndicator : Bool
  hvb_wattage : ℚ
  hvb_wattage_bp : List ℚ
  is_ev : Bool
  cruiseMain : Bool
  autoHold : Bool
  autoHoldActive : Bool
  regenPaddlePressed : Bool
  pcm_acc_status : ℤ
  do_sng : Bool
  follow_level : ℤ
  lkas_status : ℤ
  resume_button_pressed : Bool
  brake_cmd : ℚ
  apply_brake_percent : ℚ
  autoHoldActivated : Bool
  resume_required : Bool
  one_pedal_mode_active_last : Bool
  coast_one_pedal_mode_active_last : Bool
deriving Inhabited

/-- Mutable CS fields written back by the controller during a tick. -/
structure CSOut where
  brake_cmd : ℚ
  apply_brake_percent : ℚ
  autoHoldActivated : Bool
  resume_button_pressed : Bool
  resume_required : Bool
  one_pedal_mode_active_last : Bool
  coast_one_pedal_mode_active_last : Bool
deriving Repr, DecidableEq, Inhabited

/-- Initial write-back record: the values the mutable CS fields carry entering
the tick. -/
def CSOut.init (CS : CSIn) : CSOut :=
  { brake_cmd := CS.brake_cmd
    apply_brake_percent := CS.apply_brake_percent
    autoHoldActivated := CS.autoHoldActivated
    resume_button_pressed := CS.resume_button_pressed
    resume_required := CS.resume_required
    one_pedal_mode_active_last := CS.one_pedal_mode_active_last
    coast_one_pedal_mode_active_last := CS.coast_one_pedal_mode_active_last }

/-- Modelled from the spec: CarControllerParams (selfdrive/car/gm/values.py,
not in src).  Immutable per-vehicle constants and lookup tables; the spec
fixes the invariants (monotone tables, gas values between MAX_ACC_REGEN and
GAS_LOOKUP_V.last with ZERO_GAS between them, brake values between 0 and
BRAKE_LOOKUP_V.head).  update_gas_brake_threshold is kept opaque as a
function field. -/
structure CarControllerParams where
  STEER_STEP : ℕ
  STEER_MAX : ℚ
  MIN_STEER_SPEED : ℚ
  MAX_ACC_REGEN : ℤ
  ZERO_GAS : ℤ
  NEAR_STOP_BRAKE_PHASE : ℚ
  ADAS_KEEPALIVE_STEP : ℕ
  CAMERA_KEEPALIVE_STEP : ℕ
  GAS_LOOKUP_BP : List ℚ
  GAS_LOOKUP_V : List ℚ
  BRAKE_LOOKUP_BP : List ℚ
  BRAKE_LOOKUP_V : List ℚ
  update_gas_brake_threshold : ℚ → Bool → ℚ

/-- Modelled from the spec: PIDController (selfdrive/controls/lib/pid.py, not
in src).  The spec pins the saturation clamp (neg_limit -3.5, pos_limit 0.0)
and the reset semantics; speed-scheduled gains, the derivative term and the
k_1x terms are abstracted into fixed kp/ki gains since no claim depends on
them.  The output and the integrator are clamped into
[neg_limit, pos_limit]. -/
structure PIDController where
  kp : ℚ
  ki : ℚ
  pos_limit : ℚ
  neg_limit : ℚ
  i : ℚ
  control : ℚ
deriving Repr, DecidableEq, Inhabited

def PIDController.reset (p : PIDController) : PIDController :=
  { p with i := 0, control := 0 }

def PIDController.update (p : PIDController) (setpoint measurement speed feedforward : ℚ) :
    PIDController × ℚ :=
  let error := setpoint - measurement
  let pterm := error * p.kp
  let i := clip (p.i + error * p.ki) p.neg_limit p.pos_limit
  let control := clip (pterm + i + feedforward) p.neg_limit p.pos_limit
  ({ p with i := i, control := control }, control)

/-- Persistent CarController state (carcontroller.py __init__, lines 44-74). -/
structure CCState where
  start_time : ℚ
  apply_steer_last : ℤ
  lka_steering_cmd_counter_last : ℤ
  lka_icon_status_last : Bool × Bool
  steer_rate_limited : Bool
  fcw_count : ℕ
  one_pedal_pid : PIDController
  one_pedal_decel : ℚ
  one_pedal_decel_in : ℚ
  lead_accel_last_t : ℚ
  apply_gas : ℚ
  apply_brake : ℚ
deriving Repr, DecidableEq, Inhabited

/-- Outgoing CAN frames, tagged by the gmcan constructor that produced them
(gmcan.py is not in src; each frame carries the payload fields the claims
reference).  create_adas_keepalive returns an opaque list of keepalive
frames in the source; it is modelled as a single marker frame. -/
inductive Frame where
  | steeringControl (apply_steer : ℤ) (idx : ℤ) (lkas_enabled : Bool)
  | frictionBrake (apply_brake : ℚ) (idx : ℕ) (near_stop : Bool) (at_full_stop : Bool)
  | gasRegen (apply_gas : ℚ) (idx : ℕ) (acc_enabled : Bool) (at_full_stop : Bool)
  | accDashboard (enabled : Bool) (v_cruise_kph : ℚ) (show_car : Bool)
      (follow_level : ℤ) (fcw : Bool) (resume_pressed : Bool)
  | adasTime (t : ℤ) (idx : ℕ)
  | adasHeadlights
  | adasSteeringStatus (idx : ℕ)
  | adasAccelerometerSpeed (vEgo : ℚ) (idx : ℕ)
  | adasKeepalive
  | lkaIcon (active : Bool) (critical : Bool) (steer_alert : Bool)
deriving Repr, DecidableEq, Inhabited

/-! ## Actuator controller: update (carcontroller.py lines 76-327) -/

/-- Steering block (carcontroller.py lines 85-105).  The external torque-limit
function apply_std_steer_torque_limits (selfdrive/car/__init__.py, not in
src) is passed in as an oracle taking (new_steer, last_applied,
driver_torque, v_ego); v_ego stands for the P.v_ego field the source sets
from CS.out.vEgo right before the call. -/
def steeringStep (P : CarControllerParams)
    (apply_std_steer_torque_limits : ℤ → ℤ → ℚ → ℚ → ℤ)
    (st : CCState) (enabled : Bool) (CS : CSIn) (frame : ℕ) (actuators : Actuators) :
    CCState × List Frame :=
  if CS.lka_steering_cmd_counter ≠ st.lka_steering_cmd_counter_last then
    ({ st with lka_steering_cmd_counter_last := CS.lka_steering_cmd_counter }, [])
  else if frame % P.STEER_STEP = 0 then
    let lkas_enabled := (enabled || CS.pause_long_on_gas_press) && CS.lkMode &&
      !(CS.out.steerWarning || CS.out.steerError) &&
      decide (CS.out.vEgo > P.MIN_STEER_SPEED) && decide (CS.lane_change_steer_factor > 0)
    let new_steer := pyRound (actuators.steer * P.STEER_MAX * CS.lane_change_steer_factor)
    let apply_steer := if lkas_enabled then
        apply_std_steer_torque_limits new_steer st.apply_steer_last CS.out.steeringTorque CS.out.vEgo
      else 0
    let steer_rate_limited := if lkas_enabled then decide (new_steer ≠ apply_steer)
      else st.steer_rate_limited
    let idx := (CS.lka_steering_cmd_counter + 1) % 4
    ({ st with apply_steer_last := apply_steer, steer_rate_limited := steer_rate_limited },
      [Frame.steeringControl apply_steer idx lkas_enabled])
  else (st, [])

/-- Threshold-acceleration selection (carcontroller.py lines 117-124): inside
the lead-accel lockout window (or with op braking disallowed) the raw
CS.out.vEgo is used; otherwise the one-pedal speed floored at
ONE_PEDAL_MIN_SPEED. -/
def thresholdAccel (P : CarControllerParams) (st : CCState) (CS : CSIn) (now : ℚ) : ℚ :=
  if CS.one_pedal_mode_active ∧ (¬CS.one_pedal_mode_op_braking_allowed ∨
      now - st.lead_accel_last_t > ONE_PEDAL_LEAD_ACCEL_RATE_LOCKOUT_T) then
    P.update_gas_brake_threshold (max CS.vEgo ONE_PEDAL_MIN_SPEED) (decide (CS.engineRPM > 0))
  else
    P.update_gas_brake_threshold CS.out.vEgo (decide (CS.engineRPM > 0))

/-- Lead gas/brake lockout factors (carcontroller.py lines 133-160), returned
as (gas factor, brake factor). -/
def leadLockoutFactors (CS : CSIn) (v_rel ttc d_time : ℚ) : ℚ × ℚ :=
  if CS.coasting_lead_d > 0 ∧ (ttc < CS.lead_ttc_long_gas_lockout_bp.getLastD 0 ∨
      v_rel < CS.lead_v_rel_long_gas_lockout_bp.getLastD 0 ∨
      CS.coasting_lead_v < CS.lead_v_long_gas_lockout_bp.getLastD 0 ∨
      d_time < CS.tr * CS.lead_tr_long_gas_lockout_bp.getLastD 0 ∨
      CS.coasting_lead_d < CS.lead_d_long_gas_lockout_bp.getLastD 0) then
    let g := max (max (max (max
      (interp v_rel CS.lead_v_rel_long_gas_lockout_bp CS.lead_v_rel_long_gas_lockout_v)
      (interp CS.coasting_lead_v CS.lead_v_long_gas_lockout_bp CS.lead_v_long_gas_lockout_v))
      (interp ttc CS.lead_ttc_long_gas_lockout_bp CS.lead_ttc_long_gas_lockout_v))
      (interp (d_time / CS.tr) CS.lead_tr_long_gas_lockout_bp CS.lead_tr_long_gas_lockout_v))
      (interp CS.coasting_lead_d CS.lead_d_long_gas_lockout_bp CS.lead_d_long_gas_lockout_v)
    if CS.coasting_lead_d > 0 ∧ (ttc < CS.lead_ttc_long_brake_lockout_bp.getLastD 0 ∨
        v_rel < CS.lead_v_rel_long_brake_lockout_bp.getLastD 0 ∨
        CS.coasting_lead_v < CS.lead_v_long_brake_lockout_bp.getLastD 0 ∨
        d_time < CS.tr * CS.lead_tr_long_brake_lockout_bp.getLastD 0 ∨
        CS.coasting_lead_d < CS.lead_d_long_brake_lockout_bp.getLastD 0) then
      let b := max (max (max (max
        (interp v_rel CS.lead_v_rel_long_brake_lockout_bp CS.lead_v_rel_long_brake_lockout_v)
        (interp CS.coasting_lead_v CS.lead_v_long_brake_lockout_bp CS.lead_v_long_brake_lockout_v))
        (interp ttc CS.lead_ttc_long_brake_lockout_bp CS.lead_ttc_long_brake_lockout_v))
        (interp (d_time / CS.tr) CS.lead_tr_long_brake_lockout_bp CS.lead_tr_long_brake_lockout_v))
        (interp CS.coasting_lead_d CS.lead_d_long_brake_lockout_bp CS.lead_d_long_brake_lockout_v)
      (g, b)
    else (g, 0)
  else (0, 0)

/-- Enabled branch of the gas/regen preparation (carcontroller.py lines
116-219 before the final rounding): computes the lookup-table gas/brake
commands, the lead lockouts, the one-pedal state machine and the coasting
over-speed logic.  The source's CS.one_pedal_angle_steers_cutoff_bp[0]
(line 177) is modelled as .headD 0 and its bp[-1] accesses in the lockout
guards as .getLastD 0; on an empty table the source raises IndexError
where the model reads 0, so concrete results are only claimed at inputs
where the indexed tables are non-empty or the access is short-circuited
(coasting_lead_d > 0 is false).  Returns ((pid, one_pedal_decel,
one_pedal_decel_in, apply_gas, apply_brake), no_pitch_apply_gas), gas and
brake still unrounded. -/
def gasBrakeEnabledBranch (P : CarControllerParams) (now : ℚ) (st : CCState)
    (CS : CSIn) (actuators : Actuators) : (PIDController × ℚ × ℚ × ℚ × ℚ) × ℚ :=
  let k := interp CS.out.vEgo ACCEL_PITCH_FACTOR_BP ACCEL_PITCH_FACTOR_V
  let brake_accel := k * actuators.accelPitchCompensated + (1 - k) * actuators.accel
  let threshold_accel := thresholdAccel P st CS now
  let apply_gas1 := interp actuators.accelPitchCompensated P.GAS_LOOKUP_BP P.GAS_LOOKUP_V
  let no_pitch_apply_gas := interp actuators.accel P.GAS_LOOKUP_BP P.GAS_LOOKUP_V
  let apply_brake1 := interp brake_accel P.BRAKE_LOOKUP_BP P.BRAKE_LOOKUP_V
  let v_rel := CS.coasting_lead_v - CS.vEgo
  let ttc := min (if CS.coasting_lead_d > 0 ∧ v_rel < 0
    then -CS.coasting_lead_d / v_rel else 100) 100
  let d_time := if CS.coasting_lead_d > 0 ∧ CS.vEgo > 0 ∧ CS.tr > 0
    then CS.coasting_lead_d / CS.vEgo else 10
  let lf := leadLockoutFactors CS v_rel ttc d_time
  let gasLock := lf.1
  let brakeLock := lf.2
  let inactive := ¬CS.one_pedal_mode_active ∧ ¬CS.coast_one_pedal_mode_active
  let pid1 := if inactive then st.one_pedal_pid.reset else st.one_pedal_pid
  let decel1 := if inactive then CS.out.aEgo else st.one_pedal_decel
  let decelIn1 := if inactive then CS.out.aEgo else st.one_pedal_decel_in
  let branch : PIDController × ℚ × ℚ × ℚ × ℚ :=
    if CS.one_pedal_mode_active ∨ CS.coast_one_pedal_mode_active then
      let gas2 := if ¬CS.one_pedal_mode_active ∧ CS.gear_shifter_ev = 4 ∧
          CS.one_pedal_dl_coasting_enabled ∧ CS.vEgo > 1/20 then (P.ZERO_GAS : ℚ)
        else (P.MAX_ACC_REGEN : ℚ)
      let pitch_accel0 := CS.pitch * ACCELERATION_DUE_TO_GRAVITY
      let pitch_accel := pitch_accel0 * interp CS.vEgo ONE_PEDAL_ACCEL_PITCH_FACTOR_BP
        (if pitch_accel0 ≤ 0 then ONE_PEDAL_ACCEL_PITCH_FACTOR_V
         else ONE_PEDAL_ACCEL_PITCH_FACTOR_INCLINE_V)
      if CS.one_pedal_mode_active then
        let decelIn2 := interp CS.vEgo
          (ONE_PEDAL_MODE_DECEL_BP.getD CS.one_pedal_brake_mode [])
          (ONE_PEDAL_MODE_DECEL_V.getD CS.one_pedal_brake_mode [])
        let decelIn3 := if |CS.angle_steers| > CS.one_pedal_angle_steers_cutoff_bp.headD 0 then
            let minus1 := interp CS.vEgo
              (ONE_PEDAL_MODE_DECEL_BP.getD (CS.one_pedal_brake_mode - 1) [])
              (ONE_PEDAL_MODE_DECEL_V.getD (CS.one_pedal_brake_mode - 1) [])
            interp |CS.angle_steers| CS.one_pedal_angle_steers_cutoff_bp [decelIn2, minus1]
          else decelIn2
        let error_factor := interp CS.vEgo ONE_PEDAL_SPEED_ERROR_FACTOR_BP
          ONE_PEDAL_SPEED_ERROR_FACTOR_V
        let error := (decelIn3 - min 0 (CS.out.aEgo + pitch_accel)) * error_factor
        let pu := pid1.update decelIn3 (decelIn3 - error) CS.out.vEgo decelIn3
        let raw := pu.2
        let decel2 := clip raw
          (decel1 - ONE_PEDAL_DECEL_RATE_LIMIT_UP * max 1 (1/2 - raw * (1/2)))
          (decel1 + ONE_PEDAL_DECEL_RATE_LIMIT_DOWN)
        let decel3 := max decel2 ONE_PEDAL_MAX_DECEL
        let one_pedal_apply_brake := interp decel3 P.BRAKE_LOOKUP_BP P.BRAKE_LOOKUP_V
        let brake2 := if ¬CS.one_pedal_mode_op_braking_allowed ∨
            one_pedal_apply_brake > apply_brake1 then one_pedal_apply_brake else apply_brake1
        (pu.1, decel3, decelIn3, gas2, brake2)
      else
        let decelIn2 := clip
          (if CS.gear_shifter_ev = 4 ∧ CS.one_pedal_dl_coasting_enabled ∧ CS.vEgo > 1/20
           then 0 else min CS.out.aEgo threshold_accel)
          (decelIn1 - ONE_PEDAL_DECEL_RATE_LIMIT_UP)
          (decelIn1 + ONE_PEDAL_DECEL_RATE_LIMIT_DOWN)
        let brake2 := if ¬CS.one_pedal_mode_op_braking_allowed ∨ (0 : ℚ) > apply_brake1
          then 0 else apply_brake1
        (pid1, decel1, decelIn2, gas2, brake2)
    else if CS.coasting_enabled ∧ brakeLock < 1 then
      if (CS.coasting_long_plan_coast ∧ apply_gas1 < (P.ZERO_GAS : ℚ)) ∨ apply_brake1 > 0 then
        let check_speed_ms := (if CS.speed_limit_active ∧ CS.speed_limit < CS.v_cruise_kph
          then CS.speed_limit else CS.v_cruise_kph) * KPH_TO_MS
        let brake2 := if apply_brake1 > 0 then
            let bp0 := interp CS.vEgo CS.coasting_over_speed_vEgo_BP_BP
              CS.coasting_over_speed_vEgo_BP_0
            let bp1 := interp CS.vEgo CS.coasting_over_speed_vEgo_BP_BP
              CS.coasting_over_speed_vEgo_BP_1
            let over_speed_factor := if check_speed_ms > 0 ∧ CS.coasting_brake_over_speed_enabled
              then interp (CS.vEgo / check_speed_ms) [bp0, bp1] [0, 1] else 0
            let over_speed_brake := apply_brake1 * over_speed_factor
            max (apply_brake1 * brakeLock) over_speed_brake
          else apply_brake1
        let gas2 := if apply_gas1 < (P.ZERO_GAS : ℚ) ∧ gasLock < 1 then
            let bp0 := interp CS.vEgo CS.coasting_over_speed_vEgo_BP_BP
              CS.coasting_over_speed_regen_vEgo_BP_0
            let bp1 := interp CS.vEgo CS.coasting_over_speed_vEgo_BP_BP
              CS.coasting_over_speed_regen_vEgo_BP_1
            let over_speed_factor := if check_speed_ms > 0 ∧ CS.coasting_brake_over_speed_enabled
              then interp (CS.vEgo / check_speed_ms) [bp0, bp1] [0, 1] else 0
            let coast_apply_gas := ((pyRound ((P.ZERO_GAS : ℚ) -
              over_speed_factor * ((P.ZERO_GAS : ℚ) - apply_gas1)) : ℤ) : ℚ)
            apply_gas1 * gasLock + coast_apply_gas * (1 - gasLock)
          else apply_gas1
        (pid1, decel1, decelIn1, gas2, brake2)
      else (pid1, decel1, decelIn1, apply_gas1, apply_brake1)
    else if CS.no_friction_braking ∧ brakeLock < 1 then
      if CS.coasting_long_plan_coast ∧ apply_brake1 > 0 then
        (pid1, decel1, decelIn1, apply_gas1, apply_brake1 * brakeLock)
      else (pid1, decel1, decelIn1, apply_gas1, apply_brake1)
    else (pid1, decel1, decelIn1, apply_gas1, apply_brake1)
  (branch, no_pitch_apply_gas)

/-- Gas/regen preparation block (carcontroller.py lines 107-223), run at 25 Hz:
the disabled branch resets to max regen and no brake; the enabled branch
computes the lookup-table gas/brake commands, the lead lockouts, the
one-pedal state machine, the coasting over-speed logic and rounds the
results.  Returns the new controller state, the CS write-backs and the
no_pitch_apply_gas local used by the frame block. -/
def gasBrakePrep (P : CarControllerParams) (now : ℚ) (st : CCState) (enabled : Bool)
    (CS : CSIn) (frame : ℕ) (actuators : Actuators) (csOut : CSOut) :
    CCState × CSOut × ℚ :=
  if frame % 4 = 0 then
    if ¬enabled ∨ CS.pause_long_on_gas_press then
      let st1 := { st with
        apply_gas := (P.MAX_ACC_REGEN : ℚ)
        apply_brake := 0
        one_pedal_pid := st.one_pedal_pid.reset
        one_pedal_decel := CS.out.aEgo
        one_pedal_decel_in := CS.out.aEgo }
      (st1, { csOut with brake_cmd := st1.apply_brake }, 0)
    else
      let eb := gasBrakeEnabledBranch P now st CS actuators
      let gasF := ((pyRound eb.1.2.2.2.1 : ℤ) : ℚ)
      let brakeF := ((pyRound eb.1.2.2.2.2 : ℤ) : ℚ)
      let st1 := { st with
        one_pedal_pid := eb.1.1
        one_pedal_decel := eb.1.2.1
        one_pedal_decel_in := eb.1.2.2.1
        apply_gas := gasF
        apply_brake := brakeF }
      let csOut1 := { csOut with
        one_pedal_mode_active_last := CS.one_pedal_mode_active
        coast_one_pedal_mode_active_last := CS.coast_one_pedal_mode_active
        brake_cmd := brakeF }
      (st1, csOut1, eb.2)
  else (st, csOut, 0)

/-- Brake-indicator UI block (carcontroller.py lines 225-243); only writes
CS.apply_brake_percent. -/
def brakeIndicator (P : CarControllerParams) (st : CCState) (CS : CSIn) (csOut : CSOut) :
    CSOut :=
  if CS.showBrakeIndicator then
    let pct :=
      if CS.vEgo > 1/10 then
        if CS.out.cruiseStateEnabled then
          if ¬CS.pause_long_on_gas_press then
            if st.apply_brake > 1 then
              interp st.apply_brake [P.BRAKE_LOOKUP_V.getLastD 0, P.BRAKE_LOOKUP_V.headD 0]
                [51, 100]
            else if CS.one_pedal_mode_active ∨ CS.coast_one_pedal_mode_active then
              interp CS.hvb_wattage CS.hvb_wattage_bp [0, 49]
            else if st.apply_gas < (P.ZERO_GAS : ℚ) then
              interp st.apply_gas [P.GAS_LOOKUP_V.headD 0, P.GAS_LOOKUP_V.getD 1 0] [51, 0]
            else 0
          else interp CS.hvb_wattage CS.hvb_wattage_bp [0, 49]
        else if CS.is_ev ∧ CS.out.brake = 0 then
          interp CS.hvb_wattage CS.hvb_wattage_bp [0, 49]
        else if CS.out.brake > 0 then interp CS.out.brake [0, 1/2] [51, 100]
        else 0
      else if CS.out.brake > 0 then interp CS.out.brake [0, 1/2] [51, 100]
      else 0
    { csOut with apply_brake_percent := pct }
  else csOut

/-- Auto-hold guard (carcontroller.py line 249). -/
def autoHoldCondition (enabled : Bool) (CS : CSIn) : Bool :=
  CS.cruiseMain && !enabled && CS.autoHold && CS.autoHoldActive && !CS.out.gasPressed &&
    (decide (CS.out.gearShifter = "drive") || decide (CS.out.gearShifter = "low")) &&
    decide (CS.out.vEgo < 1/50) && !CS.regenPaddlePressed

/-- Friction-brake / gas-regen frame block at 25 Hz (carcontroller.py lines
245-284): the auto-hold branch emits only a friction-brake frame and latches
autoHoldActivated; the normal branch emits friction brake then gas/regen and
handles the stop-and-go resume flags. -/
def brakeGasFrames (P : CarControllerParams) (st : CCState) (enabled : Bool) (CS : CSIn)
    (frame : ℕ) (no_pitch_apply_gas : ℚ) (csOut : CSOut) : CSOut × List Frame :=
  if frame % 4 = 0 then
    let idx := (frame / 4) % 4
    if autoHoldCondition enabled CS then
      let car_stopping := decide (no_pitch_apply_gas < (P.ZERO_GAS : ℚ))
      let standstill := decide (CS.pcm_acc_status = AccState_STANDSTILL)
      let at_full_stop := standstill && car_stopping
      let near_stop := decide (CS.out.vEgo < P.NEAR_STOP_BRAKE_PHASE) && car_stopping
      ({ csOut with autoHoldActivated := true },
        [Frame.frictionBrake st.apply_brake idx near_stop at_full_stop])
    else
      let flags := if CS.pause_long_on_gas_press then (false, false, false, false)
        else
          let car_stopping := decide (no_pitch_apply_gas < (P.ZERO_GAS : ℚ))
          let standstill := decide (CS.pcm_acc_status = AccState_STANDSTILL)
          (car_stopping, standstill, enabled && standstill && car_stopping,
            enabled && decide (CS.out.vEgo < P.NEAR_STOP_BRAKE_PHASE) && car_stopping)
      let csOut1 := { csOut with autoHoldActivated := false }
      let sng := if flags.2.1 && !flags.1 then
          if CS.do_sng then (false, { csOut1 with resume_button_pressed := true })
          else if CS.out.vEgo < 3/2 then (enabled, { csOut1 with resume_required := true })
          else (enabled, csOut1)
        else (enabled, csOut1)
      (sng.2, [Frame.frictionBrake st.apply_brake idx flags.2.2.2 flags.2.2.1,
        Frame.gasRegen st.apply_gas idx sng.1 flags.2.2.1])
  else (csOut, [])

/-- Dashboard block at 25 Hz (carcontroller.py lines 287-294). -/
def dashboardFrames (enabled : Bool) (CS : CSIn) (frame : ℕ) (hud_v_cruise : ℚ)
    (hud_show_car : Bool) (hud_alert : VisualAlert) (csOut : CSOut) : CSOut × List Frame :=
  if frame % 4 = 0 then
    let send_fcw := decide (hud_alert = VisualAlert.fcw)
    ({ csOut with resume_button_pressed := false },
      [Frame.accDashboard enabled (hud_v_cruise * MS_TO_KPH) hud_show_car CS.follow_level
        send_fcw csOut.resume_button_pressed])
  else (csOut, [])

/-- Periodic ADAS/LKA-icon frames (carcontroller.py lines 296-325). -/
def miscFrames (P : CarControllerParams) (st : CCState) (CS : CSIn) (frame : ℕ)
    (actuators : Actuators) (hud_alert : VisualAlert) : CCState × List Frame :=
  let tt := (frame : ℚ) * DT_CTRL
  let f1 := if frame % 10 = 0 then
      [Frame.adasTime (pyTrunc ((tt - st.start_time) * 60)) ((frame / 10) % 4),
        Frame.adasHeadlights]
    else []
  let f2 := if frame % 2 = 0 then
      [Frame.adasSteeringStatus ((frame / 2) % 4),
        Frame.adasAccelerometerSpeed CS.out.vEgo ((frame / 2) % 4)]
    else []
  let f3 := if frame % P.ADAS_KEEPALIVE_STEP = 0 then [Frame.adasKeepalive] else []
  let lka_active := decide (CS.lkas_status = 1)
  let lka_critical := lka_active && decide (|actuators.steer| > 9/10)
  let lka_icon_status := (lka_active, lka_critical)
  if frame % P.CAMERA_KEEPALIVE_STEP = 0 ∨ lka_icon_status ≠ st.lka_icon_status_last then
    let steer_alert := decide (hud_alert = VisualAlert.steerRequired) ||
      decide (hud_alert = VisualAlert.ldw)
    ({ st with lka_icon_status_last := lka_icon_status },
      f1 ++ f2 ++ f3 ++ [Frame.lkaIcon lka_active lka_critical steer_alert])
  else (st, f1 ++ f2 ++ f3)

/-- CarController.update (carcontroller.py lines 76-327): the steering block,
the 25 Hz gas/brake preparation, the brake-indicator write-back, the frame
emission blocks and the periodic keepalives, threaded in source order.
Returns the new controller state, the CS write-backs and the outgoing
frames. -/
def CarController.update (P : CarControllerParams)
    (apply_std_steer_torque_limits : ℤ → ℤ → ℚ → ℚ → ℤ) (now : ℚ)
    (st : CCState) (enabled : Bool) (CS : CSIn) (frame : ℕ) (actuators : Actuators)
    (hud_v_cruise : ℚ) (hud_show_lanes hud_show_car : Bool) (hud_alert : VisualAlert) :
    CCState × CSOut × List Frame :=
  let s1 := steeringStep P apply_std_steer_torque_limits st enabled CS frame actuators
  let g := gasBrakePrep P now s1.1 enabled CS frame actuators (CSOut.init CS)
  let csOut2 := brakeIndicator P g.1 CS g.2.1
  let b := brakeGasFrames P g.1 enabled CS frame g.2.2 csOut2
  let d := dashboardFrames enabled CS frame hud_v_cruise hud_show_car hud_alert b.1
  let m := miscFrames P g.1 CS frame actuators hud_alert
  (m.1, d.1, s1.2 ++ b.2 ++ d.2 ++ m.2)

/-! ## Bound lemmas for the longitudinal core -/

theorem interp_bound_zero {lo hi : ℚ} (x : ℚ) (xp fp : List ℚ)
    (h0 : lo ≤ 0) (h1 : 0 ≤ hi) (hfp : ∀ v ∈ fp, lo ≤ v ∧ v ≤ hi) :
    lo ≤ interp x xp fp ∧ interp x xp fp ≤ hi := by
  have hmem : ∀ p ∈ xp.zip fp, lo ≤ p.2 ∧ p.2 ≤ hi := by
    intro p hp
    exact hfp p.2 (List.of_mem_zip hp).2
  unfold interp
  cases hz : xp.zip fp with
  | nil => exact ⟨h0, h1⟩
  | cons q rest =>
    obtain ⟨x0, f0⟩ := q
    have hf0 : lo ≤ f0 ∧ f0 ≤ hi := by
      have := hmem (x0, f0) (by rw [hz]; simp)
      simpa using this
    simp only
    split
    · exact hf0
    case isFalse hlt =>
      exact interpFrom_bound x rest x0 f0 hf0
        (fun p hp => hmem p (by rw [hz]; simp [hp])) (lt_of_not_ge fun h => hlt (by linarith))

theorem convex_bounds {lo hi a b t : ℚ} (ha1 : lo ≤ a) (ha2 : a ≤ hi) (hb1 : lo ≤ b)
    (hb2 : b ≤ hi) (ht0 : 0 ≤ t) (ht1 : t ≤ 1) :
    lo ≤ a * t + b * (1 - t) ∧ a * t + b * (1 - t) ≤ hi := by
  constructor
  · nlinarith [mul_nonneg ht0 (sub_nonneg.mpr ha1),
      mul_nonneg (sub_nonneg.mpr ht1) (sub_nonneg.mpr hb1)]
  · nlinarith [mul_nonneg ht0 (sub_nonneg.mpr ha2),
      mul_nonneg (sub_nonneg.mpr ht1) (sub_nonneg.mpr hb2)]

theorem mul_factor_bounds {hi x t : ℚ} (hx0 : 0 ≤ x) (hx1 : x ≤ hi) (ht0 : 0 ≤ t)
    (ht1 : t ≤ 1) : 0 ≤ x * t ∧ x * t ≤ hi := by
  refine ⟨mul_nonneg hx0 ht0, ?_⟩
  calc x * t ≤ x * 1 := by nlinarith
  _ = x := mul_one x
  _ ≤ hi := hx1

/-- Hypothesis bundle: every lead-lockout value table of CS has entries in
[0, 1] (the spec: the five-axis max interpolation yields scalars in [0, 1]). -/
def lockoutListsUnit (CS : CSIn) : Prop :=
  (∀ v ∈ CS.lead_v_rel_long_gas_lockout_v, 0 ≤ v ∧ v ≤ 1) ∧
  (∀ v ∈ CS.lead_v_long_gas_lockout_v, 0 ≤ v ∧ v ≤ 1) ∧
  (∀ v ∈ CS.lead_ttc_long_gas_lockout_v, 0 ≤ v ∧ v ≤ 1) ∧
  (∀ v ∈ CS.lead_tr_long_gas_lockout_v, 0 ≤ v ∧ v ≤ 1) ∧
  (∀ v ∈ CS.lead_d_long_gas_lockout_v, 0 ≤ v ∧ v ≤ 1) ∧
  (∀ v ∈ CS.lead_v_rel_long_brake_lockout_v, 0 ≤ v ∧ v ≤ 1) ∧
  (∀ v ∈ CS.lead_v_long_brake_lockout_v, 0 ≤ v ∧ v ≤ 1) ∧
  (∀ v ∈ CS.lead_ttc_long_brake_lockout_v, 0 ≤ v ∧ v ≤ 1) ∧
  (∀ v ∈ CS.lead_tr_long_brake_lockout_v, 0 ≤ v ∧ v ≤ 1) ∧
  (∀ v ∈ CS.lead_d_long_brake_lockout_v, 0 ≤ v ∧ v ≤ 1)

theorem max5_bounds {a b c d e : ℚ} (ha : 0 ≤ a ∧ a ≤ 1) (hb : 0 ≤ b ∧ b ≤ 1)
    (hc : 0 ≤ c ∧ c ≤ 1) (hd : 0 ≤ d ∧ d ≤ 1) (he : 0 ≤ e ∧ e ≤ 1) :
    0 ≤ max (max (max (max a b) c) d) e ∧ max (max (max (max a b) c) d) e ≤ 1 := by
  constructor
  · exact le_trans he.1 (le_max_right _ _)
  · exact max_le (max_le (max_le (max_le ha.2 hb.2) hc.2) hd.2) he.2

theorem leadLockoutFactors_bounds (CS : CSIn) (v_rel ttc d_time : ℚ)
    (h : lockoutListsUnit CS) :
    (0 ≤ (leadLockoutFactors CS v_rel ttc d_time).1 ∧
      (leadLockoutFactors CS v_rel ttc d_time).1 ≤ 1) ∧
    (0 ≤ (leadLockoutFactors CS v_rel ttc d_time).2 ∧
      (leadLockoutFactors CS v_rel ttc d_time).2 ≤ 1) := by
  obtain ⟨h1, h2, h3, h4, h5, h6, h7, h8, h9, h10⟩ := h
  have hg := max5_bounds
    (interp_bound_zero v_rel CS.lead_v_rel_long_gas_lockout_bp CS.lead_v_rel_long_gas_lockout_v (le_refl 0) zero_le_one h1)
    (interp_bound_zero CS.coasting_lead_v CS.lead_v_long_gas_lockout_bp CS.lead_v_long_gas_lockout_v (le_refl 0) zero_le_one h2)
    (interp_bound_zero ttc CS.lead_ttc_long_gas_lockout_bp CS.lead_ttc_long_gas_lockout_v (le_refl 0) zero_le_one h3)
    (interp_bound_zero (d_time / CS.tr) CS.lead_tr_long_gas_lockout_bp CS.lead_tr_long_gas_lockout_v (le_refl 0) zero_le_one h4)
    (interp_bound_zero CS.coasting_lead_d CS.lead_d_long_gas_lockout_bp CS.lead_d_long_gas_lockout_v (le_refl 0) zero_le_one h5)
  have hb := max5_bounds
    (interp_bound_zero v_rel CS.lead_v_rel_long_brake_lockout_bp CS.lead_v_rel_long_brake_lockout_v (le_refl 0) zero_le_one h6)
    (interp_bound_zero CS.coasting_lead_v CS.lead_v_long_brake_lockout_bp CS.lead_v_long_brake_lockout_v (le_refl 0) zero_le_one h7)
    (interp_bound_zero ttc CS.lead_ttc_long_brake_lockout_bp CS.lead_ttc_long_brake_lockout_v (le_refl 0) zero_le_one h8)
    (interp_bound_zero (d_time / CS.tr) CS.lead_tr_long_brake_lockout_bp CS.lead_tr_long_brake_lockout_v (le_refl 0) zero_le_one h9)
    (interp_bound_zero CS.coasting_lead_d CS.lead_d_long_brake_lockout_bp CS.lead_d_long_brake_lockout_v (le_refl 0) zero_le_one h10)
  unfold leadLockoutFactors
  split_ifs
  · exact ⟨hg, hb⟩
  · exact ⟨hg, by norm_num⟩
  · exact ⟨by norm_num, by norm_num⟩

/-! ## State-preservation lemmas across the update blocks -/

theorem steeringStep_preserves (P : CarControllerParams)
    (astl : ℤ → ℤ → ℚ → ℚ → ℤ) (st : CCState) (enabled : Bool) (CS : CSIn)
    (frame : ℕ) (actuators : Actuators) :
    (steeringStep P astl st enabled CS frame actuators).1.one_pedal_pid = st.one_pedal_pid ∧
    (steeringStep P astl st enabled CS frame actuators).1.one_pedal_decel = st.one_pedal_decel ∧
    (steeringStep P astl st enabled CS frame actuators).1.one_pedal_decel_in = st.one_pedal_decel_in ∧
    (steeringStep P astl st enabled CS frame actuators).1.apply_gas = st.apply_gas ∧
    (steeringStep P astl st enabled CS frame actuators).1.apply_brake = st.apply_brake ∧
    (steeringStep P astl st enabled CS frame actuators).1.lead_accel_last_t = st.lead_accel_last_t := by
  unfold steeringStep
  split_ifs <;> exact ⟨rfl, rfl, rfl, rfl, rfl, rfl⟩

theorem miscFrames_preserves (P : CarControllerParams) (st : CCState) (CS : CSIn)
    (frame : ℕ) (actuators : Actuators) (hud_alert : VisualAlert) :
    (miscFrames P st CS frame actuators hud_alert).1.one_pedal_pid = st.one_pedal_pid ∧
    (miscFrames P st CS frame actuators hud_alert).1.one_pedal_decel = st.one_pedal_decel ∧
    (miscFrames P st CS frame actuators hud_alert).1.one_pedal_decel_in = st.one_pedal_decel_in ∧
    (miscFrames P st CS frame actuators hud_alert).1.apply_gas = st.apply_gas ∧
    (miscFrames P st CS frame actuators hud_alert).1.apply_brake = st.apply_brake ∧
    (miscFrames P st CS frame actuators hud_alert).1.apply_steer_last = st.apply_steer_last := by
  dsimp only [miscFrames]
  split_ifs <;> refine ⟨?_, ?_, ?_, ?_, ?_, ?_⟩ <;> rfl

theorem gasBrakePrep_preserves_steer (P : CarControllerParams) (now : ℚ) (st : CCState)
    (enabled : Bool) (CS : CSIn) (frame : ℕ) (actuators : Actuators) (csOut : CSOut) :
    (gasBrakePrep P now st enabled CS frame actuators csOut).1.apply_steer_last = st.apply_steer_last ∧
    (gasBrakePrep P now st enabled CS frame actuators csOut).1.lka_steering_cmd_counter_last = st.lka_steering_cmd_counter_last ∧
    (gasBrakePrep P now st enabled CS frame actuators csOut).1.steer_rate_limited = st.steer_rate_limited := by
  unfold gasBrakePrep
  split_ifs <;> exact ⟨rfl, rfl, rfl⟩

def Frame.isSteering : Frame → Bool
  | .steeringControl _ _ _ => true
  | _ => false

def Frame.isFrictionBrake : Frame → Bool
  | .frictionBrake _ _ _ _ => true
  | _ => false

def Frame.isGasRegen : Frame → Bool
  | .gasRegen _ _ _ _ => true
  | _ => false

theorem gasBrakePrep_disabled (P : CarControllerParams) (now : ℚ) (st : CCState)
    (enabled : Bool) (CS : CSIn) (frame : ℕ) (actuators : Actuators) (csOut : CSOut)
    (h4 : frame % 4 = 0) (hdis : enabled = false ∨ CS.pause_long_on_gas_press = true) :
    (gasBrakePrep P now st enabled CS frame actuators csOut).1 = { st with
      apply_gas := (P.MAX_ACC_REGEN : ℚ)
      apply_brake := 0
      one_pedal_pid := st.one_pedal_pid.reset
      one_pedal_decel := CS.out.aEgo
      one_pedal_decel_in := CS.out.aEgo } := by
  have hcond : ¬enabled = true ∨ CS.pause_long_on_gas_press = true := by
    rcases hdis with h | h
    · exact Or.inl (by simp [h])
    · exact Or.inr h
  dsimp only [gasBrakePrep]
  rw [if_pos h4, if_pos (by simpa using hcond)]

theorem steeringStep_frames (P : CarControllerParams) (astl : ℤ → ℤ → ℚ → ℚ → ℤ)
    (st : CCState) (enabled : Bool) (CS : CSIn) (frame : ℕ) (actuators : Actuators) :
    (steeringStep P astl st enabled CS frame actuators).2.countP Frame.isFrictionBrake = 0 ∧
    (steeringStep P astl st enabled CS frame actuators).2.countP Frame.isGasRegen = 0 ∧
    (steeringStep P astl st enabled CS frame actuators).2.countP Frame.isSteering =
      (if CS.lka_steering_cmd_counter = st.lka_steering_cmd_counter_last then
        (if frame % P.STEER_STEP = 0 then 1 else 0) else 0) := by
  dsimp only [steeringStep]
  split_ifs with h1 h2 <;>
    simp_all [List.countP, List.countP.go, Frame.isFrictionBrake, Frame.isGasRegen,
      Frame.isSteering]

theorem dashboardFrames_counts (enabled : Bool) (CS : CSIn) (frame : ℕ)
    (hud_v_cruise : ℚ) (hud_show_car : Bool) (hud_alert : VisualAlert) (csOut : CSOut) :
    (dashboardFrames enabled CS frame hud_v_cruise hud_show_car hud_alert csOut).2.countP
        Frame.isFrictionBrake = 0 ∧
    (dashboardFrames enabled CS frame hud_v_cruise hud_show_car hud_alert csOut).2.countP
        Frame.isGasRegen = 0 ∧
    (dashboardFrames enabled CS frame hud_v_cruise hud_show_car hud_alert csOut).2.countP
        Frame.isSteering = 0 ∧
    (dashboardFrames enabled CS frame hud_v_cruise hud_show_car hud_alert csOut).1.autoHoldActivated =
      csOut.autoHoldActivated := by
  dsimp only [dashboardFrames]
  split_ifs <;>
    simp [List.countP, List.countP.go, Frame.isFrictionBrake, Frame.isGasRegen, Frame.isSteering]

theorem miscFrames_counts (P : CarControllerParams) (st : CCState) (CS : CSIn)
    (frame : ℕ) (actuators : Actuators) (hud_alert : VisualAlert) :
    (miscFrames P st CS frame actuators hud_alert).2.countP Frame.isFrictionBrake = 0 ∧
    (miscFrames P st CS frame actuators hud_alert).2.countP Frame.isGasRegen = 0 ∧
    (miscFrames P st CS frame actuators hud_alert).2.countP Frame.isSteering = 0 := by
  dsimp only [miscFrames]
  split_ifs <;>
    simp [List.countP, List.countP.go, List.countP_append, Frame.isFrictionBrake,
      Frame.isGasRegen, Frame.isSteering]

theorem brakeGasFrames_counts (P : CarControllerParams) (st : CCState) (enabled : Bool)
    (CS : CSIn) (frame : ℕ) (no_pitch_apply_gas : ℚ) (csOut : CSOut) :
    (brakeGasFrames P st enabled CS frame no_pitch_apply_gas csOut).2.countP
        Frame.isFrictionBrake = (if frame % 4 = 0 then 1 else 0) ∧
    (brakeGasFrames P st enabled CS frame no_pitch_apply_gas csOut).2.countP
        Frame.isGasRegen =
      (if frame % 4 = 0 then (if autoHoldCondition enabled CS then 0 else 1) else 0) ∧
    (brakeGasFrames P st enabled CS frame no_pitch_apply_gas csOut).2.countP
        Frame.isSteering = 0 ∧
    (brakeGasFrames P st enabled CS frame no_pitch_apply_gas csOut).1.autoHoldActivated =
      (if frame % 4 = 0 then autoHoldCondition enabled CS else csOut.autoHoldActivated) := by
  dsimp only [brakeGasFrames]
  split_ifs <;>
    simp_all [List.countP, List.countP.go, Frame.isFrictionBrake, Frame.isGasRegen,
      Frame.isSteering]

theorem gasBrakePrep_csOut (P : CarControllerParams) (now : ℚ) (st : CCState)
    (enabled : Bool) (CS : CSIn) (frame : ℕ) (actuators : Actuators) (csOut : CSOut) :
    (gasBrakePrep P now st enabled CS frame actuators csOut).2.1.autoHoldActivated =
      csOut.autoHoldActivated ∧
    (gasBrakePrep P now st enabled CS frame actuators csOut).2.1.resume_button_pressed =
      csOut.resume_button_pressed := by
  dsimp only [gasBrakePrep]
  split_ifs <;> exact ⟨rfl, rfl⟩

theorem brakeIndicator_csOut (P : CarControllerParams) (st : CCState) (CS : CSIn)
    (csOut : CSOut) :
    (brakeIndicator P st CS csOut).autoHoldActivated = csOut.autoHoldActivated ∧
    (brakeIndicator P st CS csOut).resume_button_pressed = csOut.resume_button_pressed := by
  dsimp only [brakeIndicator]
  split_ifs <;> exact ⟨rfl, rfl⟩

/-- Concrete per-vehicle parameters for witnesses: the GM Volt values named by
the spec section 3 data model (steering every 2nd tick, regen floor 1404,
zero-torque gas 2048, max gas 3072, max brake 350), with a simple opaque
coast threshold function. -/
def GMParams : CarControllerParams :=
  { STEER_STEP := 2, STEER_MAX := 300, MIN_STEER_SPEED := 3, MAX_ACC_REGEN := 1404
    ZERO_GAS := 2048, NEAR_STOP_BRAKE_PHASE := 1/2, ADAS_KEEPALIVE_STEP := 100
    CAMERA_KEEPALIVE_STEP := 100
    GAS_LOOKUP_BP := [-1, 0, 2], GAS_LOOKUP_V := [1404, 2048, 3072]
    BRAKE_LOOKUP_BP := [-4, -1], BRAKE_LOOKUP_V := [350, 0]
    update_gas_brake_threshold := fun _ _ => -1/10 }

/-- C3: on a 25 Hz tick with the controller disabled or longitudinal control
paused by gas press, update resets apply_gas to max regen, apply_brake to 0,
resets the one-pedal PID and snaps both deceleration states to the measured
aEgo. -/
theorem C3_disabled_reset (P : CarControllerParams) (astl : ℤ → ℤ → ℚ → ℚ → ℤ)
    (now : ℚ) (st : CCState) (enabled : Bool) (CS : CSIn) (frame : ℕ)
    (actuators : Actuators) (hv : ℚ) (hsl hsc : Bool) (ha : VisualAlert)
    (h4 : frame % 4 = 0) (hdis : enabled = false ∨ CS.pause_long_on_gas_press = true) :
    (CarController.update P astl now st enabled CS frame actuators hv hsl hsc ha).1.apply_gas =
        (P.MAX_ACC_REGEN : ℚ) ∧
    (CarController.update P astl now st enabled CS frame actuators hv hsl hsc ha).1.apply_brake = 0 ∧
    (CarController.update P astl now st enabled CS frame actuators hv hsl hsc ha).1.one_pedal_pid =
        st.one_pedal_pid.reset ∧
    (CarController.update P astl now st enabled CS frame actuators hv hsl hsc ha).1.one_pedal_decel =
        CS.out.aEgo ∧
    (CarController.update P astl now st enabled CS frame actuators hv hsl hsc ha).1.one_pedal_decel_in =
        CS.out.aEgo := by
  have hu : (CarController.update P astl now st enabled CS frame actuators hv hsl hsc ha).1 =
      (miscFrames P (gasBrakePrep P now (steeringStep P astl st enabled CS frame actuators).1
        enabled CS frame actuators (CSOut.init CS)).1 CS frame actuators ha).1 := rfl
  obtain ⟨hm1, hm2, hm3, hm4, hm5, hm6⟩ := miscFrames_preserves P
    (gasBrakePrep P now (steeringStep P astl st enabled CS frame actuators).1
      enabled CS frame actuators (CSOut.init CS)).1 CS frame actuators ha
  have hd := gasBrakePrep_disabled P now (steeringStep P astl st enabled CS frame actuators).1
    enabled CS frame actuators (CSOut.init CS) h4 hdis
  have hsp := steeringStep_preserves P astl st enabled CS frame actuators
  refine ⟨?_, ?_, ?_, ?_, ?_⟩
  · rw [hu, hm4, hd]
  · rw [hu, hm5, hd]
  · rw [hu, hm1, hd]
    show (steeringStep P astl st enabled CS frame actuators).1.one_pedal_pid.reset =
      st.one_pedal_pid.reset
    rw [hsp.1]
  · rw [hu, hm2, hd]
  · rw [hu, hm3, hd]

/-- Witness for C3 at concrete inputs. -/
theorem C3_disabled_reset_witness :
    (0 % 4 = 0 ∧ (false = false ∨ (default : CSIn).pause_long_on_gas_press = true)) ∧
      ((CarController.update GMParams (fun n _ _ _ => n) 0 default false default 0 default 0
          false false VisualAlert.noAlert).1.apply_gas = (GMParams.MAX_ACC_REGEN : ℚ) ∧
        (CarController.update GMParams (fun n _ _ _ => n) 0 default false default 0 default 0
          false false VisualAlert.noAlert).1.apply_brake = 0 ∧
        (CarController.update GMParams (fun n _ _ _ => n) 0 default false default 0 default 0
          false false VisualAlert.noAlert).1.one_pedal_pid =
            (default : CCState).one_pedal_pid.reset ∧
        (CarController.update GMParams (fun n _ _ _ => n) 0 default false default 0 default 0
          false false VisualAlert.noAlert).1.one_pedal_decel = (default : CSIn).out.aEgo ∧
        (CarController.update GMParams (fun n _ _ _ => n) 0 default false default 0 default 0
          false false VisualAlert.noAlert).1.one_pedal_decel_in = (default : CSIn).out.aEgo) :=
  ⟨⟨rfl, Or.inl rfl⟩, C3_disabled_reset _ _ _ _ _ _ _ _ _ _ _ _ rfl (Or.inl rfl)⟩

/-- C10: the friction-brake command is emitted exactly once per 25 Hz tick —
from the auto-hold branch when its guard holds, otherwise from the normal
branch which additionally emits exactly one gas/regen command — and
CS.autoHoldActivated is latched to whether the auto-hold branch ran; on
other ticks neither command is emitted and the flag is untouched. -/
theorem C10_brake_gas_schedule (P : CarControllerParams) (astl : ℤ → ℤ → ℚ → ℚ → ℤ)
    (now : ℚ) (st : CCState) (enabled : Bool) (CS : CSIn) (frame : ℕ)
    (actuators : Actuators) (hv : ℚ) (hsl hsc : Bool) (ha : VisualAlert) :
    (CarController.update P astl now st enabled CS frame actuators hv hsl hsc ha).2.2.countP
        Frame.isFrictionBrake = (if frame % 4 = 0 then 1 else 0) ∧
    (CarController.update P astl now st enabled CS frame actuators hv hsl hsc ha).2.2.countP
        Frame.isGasRegen =
      (if frame % 4 = 0 then (if autoHoldCondition enabled CS then 0 else 1) else 0) ∧
    (CarController.update P astl now st enabled CS frame actuators hv hsl hsc ha).2.1.autoHoldActivated =
      (if frame % 4 = 0 then autoHoldCondition enabled CS else CS.autoHoldActivated) := by
  have hu2 : (CarController.update P astl now st enabled CS frame actuators hv hsl hsc ha).2.2 =
      (steeringStep P astl st enabled CS frame actuators).2 ++
      (brakeGasFrames P (gasBrakePrep P now (steeringStep P astl st enabled CS frame
          actuators).1 enabled CS frame actuators (CSOut.init CS)).1 enabled CS frame
        (gasBrakePrep P now (steeringStep P astl st enabled CS frame actuators).1 enabled CS
          frame actuators (CSOut.init CS)).2.2
        (brakeIndicator P (gasBrakePrep P now (steeringStep P astl st enabled CS frame
            actuators).1 enabled CS frame actuators (CSOut.init CS)).1 CS
          (gasBrakePrep P now (steeringStep P astl st enabled CS frame actuators).1 enabled CS
            frame actuators (CSOut.init CS)).2.1)).2 ++
      (dashboardFrames enabled CS frame hv hsc ha
        (brakeGasFrames P (gasBrakePrep P now (steeringStep P astl st enabled CS frame
            actuators).1 enabled CS frame actuators (CSOut.init CS)).1 enabled CS frame
          (gasBrakePrep P now (steeringStep P astl st enabled CS frame actuators).1 enabled CS
            frame actuators (CSOut.init CS)).2.2
          (brakeIndicator P (gasBrakePrep P now (steeringStep P astl st enabled CS frame
              actuators).1 enabled CS frame actuators (CSOut.init CS)).1 CS
            (gasBrakePrep P now (steeringStep P astl st enabled CS frame actuators).1 enabled
              CS frame actuators (CSOut.init CS)).2.1)).1).2 ++
      (miscFrames P (gasBrakePrep P now (steeringStep P astl st enabled CS frame actuators).1
        enabled CS frame actuators (CSOut.init CS)).1 CS frame actuators ha).2 := rfl
  have hu1 : (CarController.update P astl now st enabled CS frame actuators hv hsl hsc ha).2.1 =
      (dashboardFrames enabled CS frame hv hsc ha
        (brakeGasFrames P (gasBrakePrep P now (steeringStep P astl st enabled CS frame
            actuators).1 enabled CS frame actuators (CSOut.init CS)).1 enabled CS frame
          (gasBrakePrep P now (steeringStep P astl st enabled CS frame actuators).1 enabled CS
            frame actuators (CSOut.init CS)).2.2
          (brakeIndicator P (gasBrakePrep P now (steeringStep P astl st enabled CS frame
              actuators).1 enabled CS frame actuators (CSOut.init CS)).1 CS
            (gasBrakePrep P now (steeringStep P astl st enabled CS frame actuators).1 enabled
              CS frame actuators (CSOut.init CS)).2.1)).1).1 := rfl
  have hss := steeringStep_frames P astl st enabled CS frame actuators
  have hbb := brakeGasFrames_counts P
    (gasBrakePrep P now (steeringStep P astl st enabled CS frame actuators).1 enabled CS frame
      actuators (CSOut.init CS)).1 enabled CS frame
    (gasBrakePrep P now (steeringStep P astl st enabled CS frame actuators).1 enabled CS frame
      actuators (CSOut.init CS)).2.2
    (brakeIndicator P (gasBrakePrep P now (steeringStep P astl st enabled CS frame
        actuators).1 enabled CS frame actuators (CSOut.init CS)).1 CS
      (gasBrakePrep P now (steeringStep P astl st enabled CS frame actuators).1 enabled CS
        frame actuators (CSOut.init CS)).2.1)
  have hdd := dashboardFrames_counts enabled CS frame hv hsc ha
    (brakeGasFrames P (gasBrakePrep P now (steeringStep P astl st enabled CS frame
        actuators).1 enabled CS frame actuators (CSOut.init CS)).1 enabled CS frame
      (gasBrakePrep P now (steeringStep P astl st enabled CS frame actuators).1 enabled CS
        frame actuators (CSOut.init CS)).2.2
      (brakeIndicator P (gasBrakePrep P now (steeringStep P astl st enabled CS frame
          actuators).1 enabled CS frame actuators (CSOut.init CS)).1 CS
        (gasBrakePrep P now (steeringStep P astl st enabled CS frame actuators).1 enabled CS
          frame actuators (CSOut.init CS)).2.1)).1
  have hmm := miscFrames_counts P
    (gasBrakePrep P now (steeringStep P astl st enabled CS frame actuators).1 enabled CS frame
      actuators (CSOut.init CS)).1 CS frame actuators ha
  refine ⟨?_, ?_, ?_⟩
  · rw [hu2]
    simp only [List.countP_append]
    rw [hss.1, hbb.1, hdd.1, hmm.1]
    omega
  · rw [hu2]
    simp only [List.countP_append]
    rw [hss.2.1, hbb.2.1, hdd.2.1, hmm.2.1]
    omega
  · rw [hu1, hdd.2.2.2, hbb.2.2.2]
    rw [(brakeIndicator_csOut P _ CS _).1, (gasBrakePrep_csOut P now _ enabled CS frame
      actuators (CSOut.init CS)).1]
    rfl

theorem steeringStep_skip (P : CarControllerParams) (astl : ℤ → ℤ → ℚ → ℚ → ℤ)
    (st : CCState) (enabled : Bool) (CS : CSIn) (frame : ℕ) (actuators : Actuators)
    (h : CS.lka_steering_cmd_counter ≠ st.lka_steering_cmd_counter_last) :
    steeringStep P astl st enabled CS frame actuators =
      ({ st with lka_steering_cmd_counter_last := CS.lka_steering_cmd_counter }, []) := by
  dsimp only [steeringStep]
  rw [if_pos h]

theorem steeringStep_frames_char (P : CarControllerParams) (astl : ℤ → ℤ → ℚ → ℚ → ℤ)
    (st : CCState) (enabled : Bool) (CS : CSIn) (frame : ℕ) (actuators : Actuators) :
    (steeringStep P astl st enabled CS frame actuators).2 = [] ∨
      ∃ s l, (steeringStep P astl st enabled CS frame actuators).2 =
        [Frame.steeringControl s ((CS.lka_steering_cmd_counter + 1) % 4) l] := by
  by_cases h1 : CS.lka_steering_cmd_counter ≠ st.lka_steering_cmd_counter_last
  · rw [steeringStep_skip P astl st enabled CS frame actuators h1]
    exact Or.inl rfl
  · by_cases h2 : frame % P.STEER_STEP = 0
    · exact Or.inr ⟨_, _, by dsimp only [steeringStep]; rw [if_neg h1, if_pos h2]⟩
    · refine Or.inl ?_
      dsimp only [steeringStep]
      rw [if_neg h1, if_neg h2]

theorem miscFrames_preserves_lka (P : CarControllerParams) (st : CCState) (CS : CSIn)
    (frame : ℕ) (actuators : Actuators) (hud_alert : VisualAlert) :
    (miscFrames P st CS frame actuators hud_alert).1.lka_steering_cmd_counter_last =
      st.lka_steering_cmd_counter_last := by
  dsimp only [miscFrames]
  split_ifs <;> rfl

/-- C1 (amended): on a steering tick the transmission is skipped exactly when
the ECU loopback counter HAS advanced past the last observed value (the
source's comment: skip when the next loopback confirmation just arrived).
With the loopback unchanged the steering frame IS emitted — so over two
consecutive steering ticks with no loopback change both ticks emit.  On a
skip the stored apply_steer_last is unchanged and the observed loopback
value is updated; every emitted steering frame carries counter
(lka_steering_cmd_counter + 1) mod 4. -/
theorem C1_steering_loopback_amended (P : CarControllerParams)
    (astl : ℤ → ℤ → ℚ → ℚ → ℤ) (now : ℚ) (st : CCState) (enabled : Bool) (CS : CSIn)
    (frame : ℕ) (actuators : Actuators) (hv : ℚ) (hsl hsc : Bool) (ha : VisualAlert)
    (hstep : frame % P.STEER_STEP = 0) :
    (CarController.update P astl now st enabled CS frame actuators hv hsl hsc ha).2.2.countP
        Frame.isSteering =
      (if CS.lka_steering_cmd_counter = st.lka_steering_cmd_counter_last then 1 else 0) ∧
    (CS.lka_steering_cmd_counter ≠ st.lka_steering_cmd_counter_last →
      (CarController.update P astl now st enabled CS frame actuators hv hsl hsc ha).1.apply_steer_last =
          st.apply_steer_last ∧
      (CarController.update P astl now st enabled CS frame actuators hv hsl hsc ha).1.lka_steering_cmd_counter_last =
          CS.lka_steering_cmd_counter) ∧
    (∀ s i l, Frame.steeringControl s i l ∈
        (CarController.update P astl now st enabled CS frame actuators hv hsl hsc ha).2.2 →
      i = (CS.lka_steering_cmd_counter + 1) % 4) := by
  have hu2 : (CarController.update P astl now st enabled CS frame actuators hv hsl hsc ha).2.2 =
      (steeringStep P astl st enabled CS frame actuators).2 ++
      (brakeGasFrames P (gasBrakePrep P now (steeringStep P astl st enabled CS frame
          actuators).1 enabled CS frame actuators (CSOut.init CS)).1 enabled CS frame
        (gasBrakePrep P now (steeringStep P astl st enabled CS frame actuators).1 enabled CS
          frame actuators (CSOut.init CS)).2.2
        (brakeIndicator P (gasBrakePrep P now (steeringStep P astl st enabled CS frame
            actuators).1 enabled CS frame actuators (CSOut.init CS)).1 CS
          (gasBrakePrep P now (steeringStep P astl st enabled CS frame actuators).1 enabled CS
            frame actuators (CSOut.init CS)).2.1)).2 ++
      (dashboardFrames enabled CS frame hv hsc ha
        (brakeGasFrames P (gasBrakePrep P now (steeringStep P astl st enabled CS frame
            actuators).1 enabled CS frame actuators (CSOut.init CS)).1 enabled CS frame
          (gasBrakePrep P now (steeringStep P astl st enabled CS frame actuators).1 enabled CS
            frame actuators (CSOut.init CS)).2.2
          (brakeIndicator P (gasBrakePrep P now (steeringStep P astl st enabled CS frame
              actuators).1 enabled CS frame actuators (CSOut.init CS)).1 CS
            (gasBrakePrep P now (steeringStep P astl st enabled CS frame actuators).1 enabled
              CS frame actuators (CSOut.init CS)).2.1)).1).2 ++
      (miscFrames P (gasBrakePrep P now (steeringStep P astl st enabled CS frame actuators).1
        enabled CS frame actuators (CSOut.init CS)).1 CS frame actuators ha).2 := rfl
  have hu1 : (CarController.update P astl now st enabled CS frame actuators hv hsl hsc ha).1 =
      (miscFrames P (gasBrakePrep P now (steeringStep P astl st enabled CS frame actuators).1
        enabled CS frame actuators (CSOut.init CS)).1 CS frame actuators ha).1 := rfl
  have hss := steeringStep_frames P astl st enabled CS frame actuators
  have hbb := brakeGasFrames_counts P
    (gasBrakePrep P now (steeringStep P astl st enabled CS frame actuators).1 enabled CS frame
      actuators (CSOut.init CS)).1 enabled CS frame
    (gasBrakePrep P now (steeringStep P astl st enabled CS frame actuators).1 enabled CS frame
      actuators (CSOut.init CS)).2.2
    (brakeIndicator P (gasBrakePrep P now (steeringStep P astl st enabled CS frame
        actuators).1 enabled CS frame actuators (CSOut.init CS)).1 CS
      (gasBrakePrep P now (steeringStep P astl st enabled CS frame actuators).1 enabled CS
        frame actuators (CSOut.init CS)).2.1)
  have hdd := dashboardFrames_counts enabled CS frame hv hsc ha
    (brakeGasFrames P (gasBrakePrep P now (steeringStep P astl st enabled CS frame
        actuators).1 enabled CS frame actuators (CSOut.init CS)).1 enabled CS frame
      (gasBrakePrep P now (steeringStep P astl st enabled CS frame actuators).1 enabled CS
        frame actuators (CSOut.init CS)).2.2
      (brakeIndicator P (gasBrakePrep P now (steeringStep P astl st enabled CS frame
          actuators).1 enabled CS frame actuators (CSOut.init CS)).1 CS
        (gasBrakePrep P now (steeringStep P astl st enabled CS frame actuators).1 enabled CS
          frame actuators (CSOut.init CS)).2.1)).1
  have hmm := miscFrames_counts P
    (gasBrakePrep P now (steeringStep P astl st enabled CS frame actuators).1 enabled CS frame
      actuators (CSOut.init CS)).1 CS frame actuators ha
  refine ⟨?_, ?_, ?_⟩
  · rw [hu2]
    simp only [List.countP_append]
    rw [hss.2.2, hbb.2.2.1, hdd.2.2.1, hmm.2.2]
    rw [if_pos hstep]
    omega
  · intro hne
    have hsk := steeringStep_skip P astl st enabled CS frame actuators hne
    have hgp := gasBrakePrep_preserves_steer P now
      (steeringStep P astl st enabled CS frame actuators).1 enabled CS frame actuators
      (CSOut.init CS)
    obtain ⟨_, _, _, _, _, hm6⟩ := miscFrames_preserves P
      (gasBrakePrep P now (steeringStep P astl st enabled CS frame actuators).1 enabled CS
        frame actuators (CSOut.init CS)).1 CS frame actuators ha
    have hmlka := miscFrames_preserves_lka P
      (gasBrakePrep P now (steeringStep P astl st enabled CS frame actuators).1 enabled CS
        frame actuators (CSOut.init CS)).1 CS frame actuators ha
    constructor
    · rw [hu1, hm6, hgp.1, hsk]
    · rw [hu1, hmlka, hgp.2.1, hsk]
  · intro s i l hmem
    rw [hu2] at hmem
    simp only [List.mem_append] at hmem
    have hnot : ∀ (fr : List Frame), fr.countP Frame.isSteering = 0 →
        Frame.steeringControl s i l ∉ fr := by
      intro fr hc hm
      have := List.countP_eq_zero.mp hc _ hm
      simp [Frame.isSteering] at this
    rcases hmem with ((hm | hm) | hm) | hm
    · rcases steeringStep_frames_char P astl st enabled CS frame actuators with hch | ⟨s2, l2, hch⟩
      · rw [hch] at hm
        simp at hm
      · rw [hch] at hm
        simp only [List.mem_singleton, Frame.steeringControl.injEq] at hm
        exact hm.2.1
    · exact absurd hm (hnot _ hbb.2.2.1)
    · exact absurd hm (hnot _ hdd.2.2.1)
    · exact absurd hm (hnot _ hmm.2.2)

theorem steeringStep_emit_preserves_lka (P : CarControllerParams)
    (astl : ℤ → ℤ → ℚ → ℚ → ℤ) (st : CCState) (enabled : Bool) (CS : CSIn) (frame : ℕ)
    (actuators : Actuators)
    (h : CS.lka_steering_cmd_counter = st.lka_steering_cmd_counter_last) :
    (steeringStep P astl st enabled CS frame actuators).1.lka_steering_cmd_counter_last =
      st.lka_steering_cmd_counter_last := by
  dsimp only [steeringStep]
  rw [if_neg (by simp [h])]
  split_ifs <;> rfl

/-- Witness for C1 (amended) at concrete inputs. -/
theorem C1_steering_loopback_amended_witness :
    0 % GMParams.STEER_STEP = 0 ∧
      ((CarController.update GMParams (fun n _ _ _ => n) 0 default false default 0 default 0
          false false VisualAlert.noAlert).2.2.countP Frame.isSteering =
        (if (default : CSIn).lka_steering_cmd_counter =
            (default : CCState).lka_steering_cmd_counter_last then 1 else 0) ∧
      ((default : CSIn).lka_steering_cmd_counter ≠
          (default : CCState).lka_steering_cmd_counter_last →
        (CarController.update GMParams (fun n _ _ _ => n) 0 default false default 0 default 0
            false false VisualAlert.noAlert).1.apply_steer_last =
          (default : CCState).apply_steer_last ∧
        (CarController.update GMParams (fun n _ _ _ => n) 0 default false default 0 default 0
            false false VisualAlert.noAlert).1.lka_steering_cmd_counter_last =
          (default : CSIn).lka_steering_cmd_counter) ∧
      (∀ s i l, Frame.steeringControl s i l ∈
          (CarController.update GMParams (fun n _ _ _ => n) 0 default false default 0 default
            0 false false VisualAlert.noAlert).2.2 →
        i = ((default : CSIn).lka_steering_cmd_counter + 1) % 4)) :=
  ⟨rfl, C1_steering_loopback_amended _ _ _ _ _ _ _ _ _ _ _ _ rfl⟩

/-- Counterexample to C1 as stated: two consecutive steering ticks (frames 2
and 4, STEER_STEP = 2) with no loopback counter change — the loopback
counter still equals the last observed value at the second tick — yet the
second tick emits a steering frame, contradicting the claim that the
transmission is skipped exactly when the loopback counter has not
advanced. -/
theorem C1_steering_loopback_counterexample :
    ((default : CSIn).lka_steering_cmd_counter =
      (CarController.update GMParams (fun n _ _ _ => n) 0 default false default 2 default 0
        false false VisualAlert.noAlert).1.lka_steering_cmd_counter_last) ∧
    (CarController.update GMParams (fun n _ _ _ => n) 0
      (CarController.update GMParams (fun n _ _ _ => n) 0 default false default 2 default 0
        false false VisualAlert.noAlert).1 false default 4 default 0 false false
      VisualAlert.noAlert).2.2.countP Frame.isSteering = 1 := by
  set st1 := (CarController.update GMParams (fun n _ _ _ => n) 0 default false default 2
    default 0 false false VisualAlert.noAlert).1 with hst1
  have hlast : st1.lka_steering_cmd_counter_last = 0 := by
    rw [hst1]
    rw [show (CarController.update GMParams (fun n _ _ _ => n) 0 default false default 2
        default 0 false false VisualAlert.noAlert).1 =
      (miscFrames GMParams (gasBrakePrep GMParams 0 (steeringStep GMParams (fun n _ _ _ => n)
        default false default 2 default).1 false default 2 default (CSOut.init default)).1
        default 2 default VisualAlert.noAlert).1 from rfl]
    rw [miscFrames_preserves_lka,
      (gasBrakePrep_preserves_steer GMParams 0 _ false default 2 default (CSOut.init default)).2.1,
      steeringStep_emit_preserves_lka GMParams (fun n _ _ _ => n) default false default 2
        default rfl]
    rfl
  constructor
  · rw [hlast]
    rfl
  · have hu2 : (CarController.update GMParams (fun n _ _ _ => n) 0 st1 false default 4 default
        0 false false VisualAlert.noAlert).2.2 =
        (steeringStep GMParams (fun n _ _ _ => n) st1 false default 4 default).2 ++
        (brakeGasFrames GMParams (gasBrakePrep GMParams 0 (steeringStep GMParams
            (fun n _ _ _ => n) st1 false default 4 default).1 false default 4 default
            (CSOut.init default)).1 false default 4
          (gasBrakePrep GMParams 0 (steeringStep GMParams (fun n _ _ _ => n) st1 false default
            4 default).1 false default 4 default (CSOut.init default)).2.2
          (brakeIndicator GMParams (gasBrakePrep GMParams 0 (steeringStep GMParams
              (fun n _ _ _ => n) st1 false default 4 default).1 false default 4 default
              (CSOut.init default)).1 default
            (gasBrakePrep GMParams 0 (steeringStep GMParams (fun n _ _ _ => n) st1 false
              default 4 default).1 false default 4 default (CSOut.init default)).2.1)).2 ++
        (dashboardFrames false default 4 0 false VisualAlert.noAlert
          (brakeGasFrames GMParams (gasBrakePrep GMParams 0 (steeringStep GMParams
              (fun n _ _ _ => n) st1 false default 4 default).1 false default 4 default
              (CSOut.init default)).1 false default 4
            (gasBrakePrep GMParams 0 (steeringStep GMParams (fun n _ _ _ => n) st1 false
              default 4 default).1 false default 4 default (CSOut.init default)).2.2
            (brakeIndicator GMParams (gasBrakePrep GMParams 0 (steeringStep GMParams
                (fun n _ _ _ => n) st1 false default 4 default).1 false default 4 default
                (CSOut.init default)).1 default
              (gasBrakePrep GMParams 0 (steeringStep GMParams (fun n _ _ _ => n) st1 false
                default 4 default).1 false default 4 default (CSOut.init default)).2.1)).1).2 ++
        (miscFrames GMParams (gasBrakePrep GMParams 0 (steeringStep GMParams
          (fun n _ _ _ => n) st1 false default 4 default).1 false default 4 default
          (CSOut.init default)).1 default 4 default VisualAlert.noAlert).2 := rfl
    rw [hu2]
    simp only [List.countP_append]
    rw [(steeringStep_frames GMParams (fun n _ _ _ => n) st1 false default 4 default).2.2,
      (brakeGasFrames_counts GMParams _ false default 4 _ _).2.2.1,
      (dashboardFrames_counts false default 4 0 false VisualAlert.noAlert _).2.2.1,
      (miscFrames_counts GMParams _ default 4 default VisualAlert.noAlert).2.2]
    rw [hlast, show (default : CSIn).lka_steering_cmd_counter = 0 from rfl]
    norm_num [GMParams]

/-- C8 (amended): the 0.6 s lead-accel lockout does not suppress one-pedal
mode (one_pedal_mode_active is an externally set input flag the controller
never clears); its only effect is the speed argument of
update_gas_brake_threshold — inside the window (with op braking allowed) the
raw CS.out.vEgo is used, outside the window the one-pedal speed
max(CS.vEgo, 2.1). -/
theorem C8_lockout_amended (P : CarControllerParams) (st : CCState) (CS : CSIn) (now : ℚ)
    (hactive : CS.one_pedal_mode_active = true) :
    (CS.one_pedal_mode_op_braking_allowed = true →
      now - st.lead_accel_last_t ≤ ONE_PEDAL_LEAD_ACCEL_RATE_LOCKOUT_T →
      thresholdAccel P st CS now =
        P.update_gas_brake_threshold CS.out.vEgo (decide (CS.engineRPM > 0))) ∧
    (now - st.lead_accel_last_t > ONE_PEDAL_LEAD_ACCEL_RATE_LOCKOUT_T →
      thresholdAccel P st CS now =
        P.update_gas_brake_threshold (max CS.vEgo ONE_PEDAL_MIN_SPEED)
          (decide (CS.engineRPM > 0))) := by
  constructor
  · intro hallow hwin
    unfold thresholdAccel
    rw [if_neg]
    rintro ⟨-, h2 | h2⟩
    · exact h2 (by simp [hallow])
    · exact absurd h2 (not_lt.mpr hwin)
  · intro hgt
    unfold thresholdAccel
    rw [if_pos ⟨by simp [hactive], Or.inr hgt⟩]

/-- Witness for C8 (amended) at concrete inputs. -/
theorem C8_lockout_amended_witness :
    let CS : CSIn := { (default : CSIn) with
      one_pedal_mode_active := true
      one_pedal_mode_op_braking_allowed := true }
    CS.one_pedal_mode_active = true ∧
      ((CS.one_pedal_mode_op_braking_allowed = true →
        (3/10 : ℚ) - (default : CCState).lead_accel_last_t ≤ ONE_PEDAL_LEAD_ACCEL_RATE_LOCKOUT_T →
        thresholdAccel GMParams default CS (3/10) =
          GMParams.update_gas_brake_threshold CS.out.vEgo (decide (CS.engineRPM > 0))) ∧
      ((3/10 : ℚ) - (default : CCState).lead_accel_last_t > ONE_PEDAL_LEAD_ACCEL_RATE_LOCKOUT_T →
        thresholdAccel GMParams default CS (3/10) =
          GMParams.update_gas_brake_threshold (max CS.vEgo ONE_PEDAL_MIN_SPEED)
            (decide (CS.engineRPM > 0)))) :=
  ⟨rfl, C8_lockout_amended GMParams default _ (3/10) rfl⟩

/-- Inputs for the C8 counterexample: one-pedal mode active and op braking
allowed, with a lead-accel event recorded at t = 0 so that now = 0.3 s lies
inside the 0.6 s lockout window.  The steering-angle cutoff table is
non-empty (carstate supplies it), so the bp[0] access of carcontroller.py
line 177 is in range and, with angle_steers = 0 < 60, its branch is not
taken — the source completes the tick exactly as the model computes it. -/
def csC8 : CSIn := { (default : CSIn) with
  one_pedal_mode_active := true
  one_pedal_mode_op_braking_allowed := true
  vEgo := 5
  one_pedal_angle_steers_cutoff_bp := [60, 270] }

def stC8 : CCState := { (default : CCState) with
  one_pedal_pid := { kp := 1, ki := 0, pos_limit := 0, neg_limit := -7/2, i := 0, control := 0 }
  one_pedal_decel := -2 }

def stP : CCState := { stC8 with apply_steer_last := 0, steer_rate_limited := false }

set_option maxHeartbeats 1000000 in
/-- Counterexample to C8 as stated: inside the 0.6 s lead-accel lockout
window (now - lead_accel_last_t = 0.3 <= 0.6) with op braking allowed,
one-pedal mode is active and the controller runs the one-pedal branch,
commanding a non-zero friction brake (apply_brake = 113); the lockout does
not suppress one-pedal mode (carcontroller.py lines 117-124 only pick the
threshold speed). -/
theorem C8_lockout_counterexample :
    csC8.one_pedal_mode_op_braking_allowed = true ∧
    (3/10 : ℚ) - stC8.lead_accel_last_t ≤ ONE_PEDAL_LEAD_ACCEL_RATE_LOCKOUT_T ∧
    csC8.one_pedal_mode_active = true ∧
    (CarController.update GMParams (fun n _ _ _ => n) (3/10) stC8 true csC8 0 default 0 false
      false VisualAlert.noAlert).1.apply_brake = 113 := by
  refine ⟨rfl, ?_, rfl, ?_⟩
  · rw [show stC8.lead_accel_last_t = (0:ℚ) from rfl]
    norm_num [ONE_PEDAL_LEAD_ACCEL_RATE_LOCKOUT_T]
  · rw [show (CarController.update GMParams (fun n _ _ _ => n) (3/10) stC8 true csC8 0 default 0
        false false VisualAlert.noAlert).1 =
      (miscFrames GMParams (gasBrakePrep GMParams (3/10) (steeringStep GMParams
        (fun n _ _ _ => n) stC8 true csC8 0 default).1 true csC8 0 default
        (CSOut.init csC8)).1 csC8 0 default VisualAlert.noAlert).1 from rfl]
    rw [(miscFrames_preserves GMParams _ csC8 0 default VisualAlert.noAlert).2.2.2.2.1]
    rw [show (steeringStep GMParams (fun n _ _ _ => n) stC8 true csC8 0 default).1 = stP from rfl]
    dsimp only [gasBrakePrep]
    rw [if_pos (by norm_num), if_neg (by simp [csC8])]
    dsimp only
    have hEB : (gasBrakeEnabledBranch GMParams (3/10) stP csC8 default).1.2.2.2.2
        = 1694/15 := by
      have h1 : csC8.one_pedal_mode_active = true := rfl
      have h2 : csC8.coast_one_pedal_mode_active = false := rfl
      have h3 : csC8.one_pedal_mode_op_braking_allowed = true := rfl
      have h4 : csC8.vEgo = 5 := rfl
      have h5 : csC8.out.vEgo = 0 := rfl
      have h6 : csC8.out.aEgo = 0 := rfl
      have h7 : csC8.coasting_lead_v = 0 := rfl
      have h8 : csC8.coasting_lead_d = 0 := rfl
      have h9 : csC8.tr = 0 := rfl
      have h10 : csC8.pitch = 0 := rfl
      have h11 : csC8.one_pedal_brake_mode = 0 := rfl
      have h12 : csC8.angle_steers = 0 := rfl
      have h13 : csC8.one_pedal_angle_steers_cutoff_bp = ([60, 270] : List ℚ) := rfl
      have h15 : csC8.one_pedal_dl_coasting_enabled = false := rfl
      have hs1 : stP.one_pedal_pid =
          { kp := 1, ki := 0, pos_limit := 0, neg_limit := -7/2, i := 0, control := 0 } := rfl
      have hs2 : stP.one_pedal_decel = -2 := rfl
      have hs3 : stP.one_pedal_decel_in = 0 := rfl
      have ha1 : (default : Actuators).accel = 0 := rfl
      have ha2 : (default : Actuators).accelPitchCompensated = 0 := rfl
      have hg1 : (GMParams.MAX_ACC_REGEN : ℚ) = 1404 := rfl
      have hg2 : (GMParams.ZERO_GAS : ℚ) = 2048 := rfl
      have hg3 : GMParams.GAS_LOOKUP_BP = [-1, 0, 2] := rfl
      have hg4 : GMParams.GAS_LOOKUP_V = [1404, 2048, 3072] := rfl
      have hg5 : GMParams.BRAKE_LOOKUP_BP = [-4, -1] := rfl
      have hg6 : GMParams.BRAKE_LOOKUP_V = [350, 0] := rfl
      have eGas : interp (0:ℚ) [-1, 0, 2] [1404, 2048, 3072] = 2048 := by
        norm_num [interp, interpFrom]
      have eBrk0 : interp (0:ℚ) [-4, -1] [350, 0] = 0 := by
        norm_num [interp, interpFrom]
      have eDecelIn : interp (5:ℚ) (ONE_PEDAL_MODE_DECEL_BP[0]?.getD [])
          (ONE_PEDAL_MODE_DECEL_V[0]?.getD []) = -11/10 := by
        norm_num [interp, interpFrom, ONE_PEDAL_MODE_DECEL_BP, ONE_PEDAL_MODE_DECEL_V,
          MPH_TO_MS]
      have eErrF : interp (5:ℚ) ONE_PEDAL_SPEED_ERROR_FACTOR_BP
          ONE_PEDAL_SPEED_ERROR_FACTOR_V = 67/185 := by
        norm_num [interp, interpFrom, ONE_PEDAL_SPEED_ERROR_FACTOR_BP,
          ONE_PEDAL_SPEED_ERROR_FACTOR_V, MPH_TO_MS]
      have eOPB : ∀ x : ℚ, x = -246/125 → interp x [-4, -1] [350, 0] = 1694/15 := by
        intro x hx
        subst hx
        norm_num [interp, interpFrom]
      norm_num [gasBrakeEnabledBranch, h1, h2, h3, h4, h5, h6, h7, h8, h9, h10, h11, h12,
        h13, h15, hs1, hs2, hs3, ha1, ha2, hg1, hg2, hg3, hg4, hg5, hg6,
        eGas, eBrk0, eDecelIn, eErrF, eOPB,
        PIDController.update, clip, List.headD, min_def, max_def,
        ONE_PEDAL_DECEL_RATE_LIMIT_UP, ONE_PEDAL_DECEL_RATE_LIMIT_DOWN,
        ONE_PEDAL_MAX_DECEL, DT_CTRL, MPH_TO_MS]
    rw [hEB]
    norm_num [pyRound]


/-- Inputs for the C2 counterexample: the vehicle decelerating at 4 m/s^2
while the controller is disabled. -/
def csC2 : CSIn := { (default : CSIn) with
  out := { (default : CSOutSnap) with aEgo := -4 } }

/-- Counterexample to C2 as stated: on a disabled 25 Hz tick the stored
one_pedal_decel is snapped to CS.out.aEgo (carcontroller.py lines 108-115),
here -4 < -3.5, so the claimed unconditional -3.5 floor fails; the floor
(lines 186-187) is applied only inside the one-pedal active branch. -/
theorem C2_ranges_counterexample :
    (0 : ℕ) % 4 = 0 ∧
    (CarController.update GMParams (fun n _ _ _ => n) 0 default false csC2 0 default 0 false
      false VisualAlert.noAlert).1.one_pedal_decel = -4 ∧
    ¬(ONE_PEDAL_MAX_DECEL ≤
      (CarController.update GMParams (fun n _ _ _ => n) 0 default false csC2 0 default 0 false
        false VisualAlert.noAlert).1.one_pedal_decel) := by
  have hu : (CarController.update GMParams (fun n _ _ _ => n) 0 default false csC2 0 default 0
      false false VisualAlert.noAlert).1 =
    (miscFrames GMParams (gasBrakePrep GMParams 0 (steeringStep GMParams (fun n _ _ _ => n)
      default false csC2 0 default).1 false csC2 0 default (CSOut.init csC2)).1 csC2 0 default
      VisualAlert.noAlert).1 := rfl
  have hm := (miscFrames_preserves GMParams (gasBrakePrep GMParams 0 (steeringStep GMParams
    (fun n _ _ _ => n) default false csC2 0 default).1 false csC2 0 default
    (CSOut.init csC2)).1 csC2 0 default VisualAlert.noAlert).2.1
  have hd := gasBrakePrep_disabled GMParams 0 (steeringStep GMParams (fun n _ _ _ => n)
    default false csC2 0 default).1 false csC2 0 default (CSOut.init csC2) rfl (Or.inl rfl)
  refine ⟨rfl, ?_, ?_⟩
  · rw [hu, hm, hd]
    exact rfl
  · rw [hu, hm, hd]
    show ¬(ONE_PEDAL_MAX_DECEL ≤ (-4 : ℚ))
    norm_num [ONE_PEDAL_MAX_DECEL]

/-- On an enabled, un-paused 25 Hz tick the gas/regen preparation stores the
rounded outputs of the enabled branch. -/
theorem gasBrakePrep_enabled (P : CarControllerParams) (now : ℚ) (st : CCState)
    (enabled : Bool) (CS : CSIn) (frame : ℕ) (actuators : Actuators) (csOut : CSOut)
    (h4 : frame % 4 = 0) (hen : enabled = true) (hp : CS.pause_long_on_gas_press = false) :
    (gasBrakePrep P now st enabled CS frame actuators csOut).1 = { st with
      one_pedal_pid := (gasBrakeEnabledBranch P now st CS actuators).1.1
      one_pedal_decel := (gasBrakeEnabledBranch P now st CS actuators).1.2.1
      one_pedal_decel_in := (gasBrakeEnabledBranch P now st CS actuators).1.2.2.1
      apply_gas := ((pyRound (gasBrakeEnabledBranch P now st CS actuators).1.2.2.2.1 : ℤ) : ℚ)
      apply_brake :=
        ((pyRound (gasBrakeEnabledBranch P now st CS actuators).1.2.2.2.2 : ℤ) : ℚ) } := by
  dsimp only [gasBrakePrep]
  rw [if_pos h4, if_neg (by simp [hen, hp])]

theorem coast_gas_bound {regen gmax : ℤ} {ag zg t osf : ℚ}
    (hag : (regen:ℚ) ≤ ag ∧ ag ≤ (gmax:ℚ)) (hzg : (regen:ℚ) ≤ zg ∧ zg ≤ (gmax:ℚ))
    (ht : 0 ≤ t ∧ t ≤ 1) (hosf : 0 ≤ osf ∧ osf ≤ 1) :
    (regen:ℚ) ≤ ag * t + ((pyRound (zg - osf * (zg - ag)) : ℤ) : ℚ) * (1 - t) ∧
    ag * t + ((pyRound (zg - osf * (zg - ag)) : ℤ) : ℚ) * (1 - t) ≤ (gmax:ℚ) := by
  have hinner1 : (regen:ℚ) ≤ zg - osf * (zg - ag) := by
    nlinarith [mul_nonneg hosf.1 (sub_nonneg.mpr hag.1),
      mul_nonneg (sub_nonneg.mpr hosf.2) (sub_nonneg.mpr hzg.1)]
  have hinner2 : zg - osf * (zg - ag) ≤ (gmax:ℚ) := by
    nlinarith [mul_nonneg hosf.1 (sub_nonneg.mpr hag.2),
      mul_nonneg (sub_nonneg.mpr hosf.2) (sub_nonneg.mpr hzg.2)]
  have hpr := pyRound_bound hinner1 hinner2
  have hpr1 : (regen:ℚ) ≤ ((pyRound (zg - osf * (zg - ag)) : ℤ) : ℚ) := by exact_mod_cast hpr.1
  have hpr2 : ((pyRound (zg - osf * (zg - ag)) : ℤ) : ℚ) ≤ (gmax:ℚ) := by exact_mod_cast hpr.2
  exact convex_bounds hag.1 hag.2 hpr1 hpr2 ht.1 ht.2

theorem proj_ite_bound {α : Type} {c : Prop} [Decidable c] (f : α → ℚ) {lo hi : ℚ}
    (a b : α) (h1 : lo ≤ f a ∧ f a ≤ hi) (h2 : lo ≤ f b ∧ f b ≤ hi) :
    lo ≤ f (if c then a else b) ∧ f (if c then a else b) ≤ hi := by
  split
  · exact h1
  · exact h2

theorem ite_rat_bound {c : Prop} [Decidable c] {lo hi a b : ℚ}
    (h1 : lo ≤ a ∧ a ≤ hi) (h2 : lo ≤ b ∧ b ≤ hi) :
    lo ≤ (if c then a else b) ∧ (if c then a else b) ≤ hi := by
  split
  · exact h1
  · exact h2

theorem gasBrakeEnabledBranch_bounds (P : CarControllerParams) (now : ℚ) (st : CCState)
    (CS : CSIn) (actuators : Actuators) (regen gmax bmax : ℤ)
    (hgBP : P.GAS_LOOKUP_BP ≠ []) (hgV : P.GAS_LOOKUP_V ≠ [])
    (hbBP : P.BRAKE_LOOKUP_BP ≠ []) (hbV : P.BRAKE_LOOKUP_V ≠ [])
    (hgv : ∀ v ∈ P.GAS_LOOKUP_V, (regen:ℚ) ≤ v ∧ v ≤ (gmax:ℚ))
    (hbv : ∀ v ∈ P.BRAKE_LOOKUP_V, 0 ≤ v ∧ v ≤ (bmax:ℚ))
    (hzg : (regen:ℚ) ≤ (P.ZERO_GAS:ℚ) ∧ (P.ZERO_GAS:ℚ) ≤ (gmax:ℚ))
    (hmar : (regen:ℚ) ≤ (P.MAX_ACC_REGEN:ℚ) ∧ (P.MAX_ACC_REGEN:ℚ) ≤ (gmax:ℚ))
    (hlock : lockoutListsUnit CS) :
    ((regen:ℚ) ≤ (gasBrakeEnabledBranch P now st CS actuators).1.2.2.2.1 ∧
      (gasBrakeEnabledBranch P now st CS actuators).1.2.2.2.1 ≤ (gmax:ℚ)) ∧
    (0 ≤ (gasBrakeEnabledBranch P now st CS actuators).1.2.2.2.2 ∧
      (gasBrakeEnabledBranch P now st CS actuators).1.2.2.2.2 ≤ (bmax:ℚ)) ∧
    (CS.one_pedal_mode_active = true →
      ONE_PEDAL_MAX_DECEL ≤ (gasBrakeEnabledBranch P now st CS actuators).1.2.1) := by
  have hgI : ∀ x : ℚ, (regen:ℚ) ≤ interp x P.GAS_LOOKUP_BP P.GAS_LOOKUP_V ∧
      interp x P.GAS_LOOKUP_BP P.GAS_LOOKUP_V ≤ (gmax:ℚ) :=
    fun x => interp_bound x _ _ hgv hgBP hgV
  have hbI : ∀ x : ℚ, 0 ≤ interp x P.BRAKE_LOOKUP_BP P.BRAKE_LOOKUP_V ∧
      interp x P.BRAKE_LOOKUP_BP P.BRAKE_LOOKUP_V ≤ (bmax:ℚ) :=
    fun x => interp_bound x _ _ hbv hbBP hbV
  have hlfI : ∀ a b c : ℚ,
      (0 ≤ (leadLockoutFactors CS a b c).1 ∧ (leadLockoutFactors CS a b c).1 ≤ 1) ∧
      (0 ≤ (leadLockoutFactors CS a b c).2 ∧ (leadLockoutFactors CS a b c).2 ≤ 1) :=
    fun a b c => leadLockoutFactors_bounds CS a b c hlock
  have h01I : ∀ x b0 b1 : ℚ, 0 ≤ interp x [b0, b1] [0, 1] ∧ interp x [b0, b1] [0, 1] ≤ 1 :=
    fun x b0 b1 => interp_bound_zero x [b0, b1] [0, 1] le_rfl zero_le_one
      (by intro v hv; fin_cases hv <;> norm_num)
  have h0b : (0:ℚ) ≤ (bmax:ℚ) := le_trans (hbI 0).1 (hbI 0).2
  dsimp only [gasBrakeEnabledBranch]
  refine ⟨?_, ?_, ?_⟩
  · refine proj_ite_bound (fun p : PIDController × ℚ × ℚ × ℚ × ℚ => p.2.2.2.1) _ _ ?_ ?_
    · refine proj_ite_bound (fun p : PIDController × ℚ × ℚ × ℚ × ℚ => p.2.2.2.1) _ _ ?_ ?_ <;>
        exact ite_rat_bound ⟨hzg.1, hzg.2⟩ ⟨hmar.1, hmar.2⟩
    · refine proj_ite_bound (fun p : PIDController × ℚ × ℚ × ℚ × ℚ => p.2.2.2.1) _ _ ?_ ?_
      · refine proj_ite_bound (fun p : PIDController × ℚ × ℚ × ℚ × ℚ => p.2.2.2.1) _ _ ?_ ?_
        · refine ite_rat_bound ?_ ⟨(hgI _).1, (hgI _).2⟩
          exact coast_gas_bound ⟨(hgI _).1, (hgI _).2⟩ hzg
            ⟨(hlfI _ _ _).1.1, (hlfI _ _ _).1.2⟩
            (ite_rat_bound ⟨(h01I _ _ _).1, (h01I _ _ _).2⟩ ⟨le_refl 0, zero_le_one⟩)
        · exact ⟨(hgI _).1, (hgI _).2⟩
      · refine proj_ite_bound (fun p : PIDController × ℚ × ℚ × ℚ × ℚ => p.2.2.2.1) _ _ ?_ ?_
        · refine proj_ite_bound (fun p : PIDController × ℚ × ℚ × ℚ × ℚ => p.2.2.2.1) _ _ ?_ ?_ <;>
            exact ⟨(hgI _).1, (hgI _).2⟩
        · exact ⟨(hgI _).1, (hgI _).2⟩
  · refine proj_ite_bound (fun p : PIDController × ℚ × ℚ × ℚ × ℚ => p.2.2.2.2) _ _ ?_ ?_
    · refine proj_ite_bound (fun p : PIDController × ℚ × ℚ × ℚ × ℚ => p.2.2.2.2) _ _ ?_ ?_
      · exact ite_rat_bound ⟨(hbI _).1, (hbI _).2⟩ ⟨(hbI _).1, (hbI _).2⟩
      · exact ite_rat_bound ⟨le_refl 0, h0b⟩ ⟨(hbI _).1, (hbI _).2⟩
    · refine proj_ite_bound (fun p : PIDController × ℚ × ℚ × ℚ × ℚ => p.2.2.2.2) _ _ ?_ ?_
      · refine proj_ite_bound (fun p : PIDController × ℚ × ℚ × ℚ × ℚ => p.2.2.2.2) _ _ ?_ ?_
        · refine ite_rat_bound ⟨?_, ?_⟩ ⟨(hbI _).1, (hbI _).2⟩
          · exact le_max_of_le_left
              (mul_factor_bounds (hbI _).1 (hbI _).2 (hlfI _ _ _).2.1 (hlfI _ _ _).2.2).1
          · exact max_le
              (mul_factor_bounds (hbI _).1 (hbI _).2 (hlfI _ _ _).2.1 (hlfI _ _ _).2.2).2
              (mul_factor_bounds (hbI _).1 (hbI _).2
                (ite_rat_bound ⟨(h01I _ _ _).1, (h01I _ _ _).2⟩ ⟨le_refl 0, zero_le_one⟩).1
                (ite_rat_bound ⟨(h01I _ _ _).1, (h01I _ _ _).2⟩
                  ⟨le_refl 0, zero_le_one⟩).2).2
        · exact ⟨(hbI _).1, (hbI _).2⟩
      · refine proj_ite_bound (fun p : PIDController × ℚ × ℚ × ℚ × ℚ => p.2.2.2.2) _ _ ?_ ?_
        · refine proj_ite_bound (fun p : PIDController × ℚ × ℚ × ℚ × ℚ => p.2.2.2.2) _ _ ?_ ?_
          · exact ⟨(mul_factor_bounds (hbI _).1 (hbI _).2 (hlfI _ _ _).2.1
              (hlfI _ _ _).2.2).1,
              (mul_factor_bounds (hbI _).1 (hbI _).2 (hlfI _ _ _).2.1 (hlfI _ _ _).2.2).2⟩
          · exact ⟨(hbI _).1, (hbI _).2⟩
        · exact ⟨(hbI _).1, (hbI _).2⟩
  · intro hact
    rw [if_pos (Or.inl hact : CS.one_pedal_mode_active = true ∨
      CS.coast_one_pedal_mode_active = true), if_pos hact]
    exact le_max_right _ _

/-- C2 (amended): after any tick on the 25 Hz schedule, apply_gas and
apply_brake are integers lying in the declared lookup-table ranges
(apply_gas in [MAX_ACC_REGEN, max gas table value], apply_brake in
[0, max brake table value]), provided every lookup table is non-empty, its
values lie in those ranges and the lead-lockout tables take values in
[0, 1]; the -3.5 m/s^2 floor on one_pedal_decel holds only when the
controller is enabled, not paused by a gas press, and one-pedal mode is
active — not unconditionally (see the counterexample). -/
theorem C2_ranges_amended (P : CarControllerParams) (astl : ℤ → ℤ → ℚ → ℚ → ℤ)
    (now : ℚ) (st : CCState) (enabled : Bool) (CS : CSIn) (frame : ℕ)
    (actuators : Actuators) (hv : ℚ) (hsl hsc : Bool) (ha : VisualAlert)
    (regen gmax bmax : ℤ) (h4 : frame % 4 = 0)
    (hgBP : P.GAS_LOOKUP_BP ≠ []) (hgV : P.GAS_LOOKUP_V ≠ [])
    (hbBP : P.BRAKE_LOOKUP_BP ≠ []) (hbV : P.BRAKE_LOOKUP_V ≠ [])
    (hgv : ∀ v ∈ P.GAS_LOOKUP_V, (regen:ℚ) ≤ v ∧ v ≤ (gmax:ℚ))
    (hbv : ∀ v ∈ P.BRAKE_LOOKUP_V, 0 ≤ v ∧ v ≤ (bmax:ℚ))
    (hzg : (regen:ℚ) ≤ (P.ZERO_GAS:ℚ) ∧ (P.ZERO_GAS:ℚ) ≤ (gmax:ℚ))
    (hmar : (regen:ℚ) ≤ (P.MAX_ACC_REGEN:ℚ) ∧ (P.MAX_ACC_REGEN:ℚ) ≤ (gmax:ℚ))
    (hlock : lockoutListsUnit CS) :
    (∃ n : ℤ, (CarController.update P astl now st enabled CS frame actuators hv hsl hsc ha).1.apply_gas = (n:ℚ)) ∧
    (∃ n : ℤ, (CarController.update P astl now st enabled CS frame actuators hv hsl hsc ha).1.apply_brake = (n:ℚ)) ∧
    ((regen:ℚ) ≤ (CarController.update P astl now st enabled CS frame actuators hv hsl hsc ha).1.apply_gas ∧ (CarController.update P astl now st enabled CS frame actuators hv hsl hsc ha).1.apply_gas ≤ (gmax:ℚ)) ∧
    (0 ≤ (CarController.update P astl now st enabled CS frame actuators hv hsl hsc ha).1.apply_brake ∧ (CarController.update P astl now st enabled CS frame actuators hv hsl hsc ha).1.apply_brake ≤ (bmax:ℚ)) ∧
    (enabled = true → CS.pause_long_on_gas_press = false →
      CS.one_pedal_mode_active = true →
      ONE_PEDAL_MAX_DECEL ≤ (CarController.update P astl now st enabled CS frame actuators hv hsl hsc ha).1.one_pedal_decel) := by
  have h0b : (0:ℚ) ≤ (bmax:ℚ) :=
    le_trans (interp_bound (0:ℚ) _ _ hbv hbBP hbV).1 (interp_bound (0:ℚ) _ _ hbv hbBP hbV).2
  have hu : (CarController.update P astl now st enabled CS frame actuators hv hsl hsc ha).1 =
      (miscFrames P (gasBrakePrep P now (steeringStep P astl st enabled CS frame actuators).1 enabled CS frame actuators (CSOut.init CS)).1 CS frame actuators ha).1 := rfl
  obtain ⟨hm1, hm2, hm3, hm4, hm5, hm6⟩ :=
    miscFrames_preserves P (gasBrakePrep P now (steeringStep P astl st enabled CS frame actuators).1 enabled CS frame actuators (CSOut.init CS)).1 CS frame actuators ha
  by_cases hdis : enabled = false ∨ CS.pause_long_on_gas_press = true
  · have hd := gasBrakePrep_disabled P now (steeringStep P astl st enabled CS frame actuators).1
      enabled CS frame actuators (CSOut.init CS) h4 hdis
    refine ⟨⟨P.MAX_ACC_REGEN, by rw [hu, hm4, hd]⟩,
      ⟨0, by rw [hu, hm5, hd]; show (0:ℚ) = ((0:ℤ):ℚ); norm_num⟩,
      ⟨by rw [hu, hm4, hd]; exact hmar.1, by rw [hu, hm4, hd]; exact hmar.2⟩,
      ⟨by rw [hu, hm5, hd], by rw [hu, hm5, hd]; exact h0b⟩, ?_⟩
    intro he hp _
    rcases hdis with h | h
    · rw [he] at h
      exact absurd h (by simp)
    · rw [hp] at h
      exact absurd h (by simp)
  · have he : enabled = true := by
      rcases Bool.eq_false_or_eq_true enabled with h | h
      · exact h
      · exact absurd (Or.inl h) hdis
    have hp : CS.pause_long_on_gas_press = false := by
      rcases Bool.eq_false_or_eq_true CS.pause_long_on_gas_press with h | h
      · exact absurd (Or.inr h) hdis
      · exact h
    have hen := gasBrakePrep_enabled P now (steeringStep P astl st enabled CS frame actuators).1
      enabled CS frame actuators (CSOut.init CS) h4 he hp
    have hB := gasBrakeEnabledBranch_bounds P now (steeringStep P astl st enabled CS frame actuators).1
      CS actuators regen gmax bmax hgBP hgV hbBP hbV hgv hbv hzg hmar hlock
    have hpg := pyRound_bound hB.1.1 hB.1.2
    have hpb := pyRound_bound (a := 0) (by exact_mod_cast hB.2.1.1) hB.2.1.2
    refine ⟨⟨pyRound (gasBrakeEnabledBranch P now (steeringStep P astl st enabled CS frame actuators).1 CS actuators).1.2.2.2.1, ?_⟩,
      ⟨pyRound (gasBrakeEnabledBranch P now (steeringStep P astl st enabled CS frame actuators).1 CS actuators).1.2.2.2.2, ?_⟩, ⟨?_, ?_⟩, ⟨?_, ?_⟩, ?_⟩
    · rw [hu, hm4, hen]
    · rw [hu, hm5, hen]
    · rw [hu, hm4, hen]
      show (regen:ℚ) ≤ ((pyRound (gasBrakeEnabledBranch P now (steeringStep P astl st enabled CS frame actuators).1 CS actuators).1.2.2.2.1 : ℤ) : ℚ)
      exact_mod_cast hpg.1
    · rw [hu, hm4, hen]
      show ((pyRound (gasBrakeEnabledBranch P now (steeringStep P astl st enabled CS frame actuators).1 CS actuators).1.2.2.2.1 : ℤ) : ℚ) ≤ (gmax:ℚ)
      exact_mod_cast hpg.2
    · rw [hu, hm5, hen]
      show (0:ℚ) ≤ ((pyRound (gasBrakeEnabledBranch P now (steeringStep P astl st enabled CS frame actuators).1 CS actuators).1.2.2.2.2 : ℤ) : ℚ)
      exact_mod_cast hpb.1
    · rw [hu, hm5, hen]
      show ((pyRound (gasBrakeEnabledBranch P now (steeringStep P astl st enabled CS frame actuators).1 CS actuators).1.2.2.2.2 : ℤ) : ℚ) ≤ (bmax:ℚ)
      exact_mod_cast hpb.2
    · intro _ _ hact
      rw [hu, hm2, hen]
      show ONE_PEDAL_MAX_DECEL ≤ (gasBrakeEnabledBranch P now (steeringStep P astl st enabled CS frame actuators).1 CS actuators).1.2.1
      exact hB.2.2 hact

/-- Witness for C2 (amended) at concrete inputs. -/
theorem C2_ranges_amended_witness :
    (0 : ℕ) % 4 = 0 ∧
    ((∃ n : ℤ, (CarController.update GMParams (fun n _ _ _ => n) 0 default false default 0 default 0 false false VisualAlert.noAlert).1.apply_gas = (n:ℚ)) ∧
    (∃ n : ℤ, (CarController.update GMParams (fun n _ _ _ => n) 0 default false default 0 default 0 false false VisualAlert.noAlert).1.apply_brake = (n:ℚ)) ∧
    (((1404:ℤ):ℚ) ≤ (CarController.update GMParams (fun n _ _ _ => n) 0 default false default 0 default 0 false false VisualAlert.noAlert).1.apply_gas ∧ (CarController.update GMParams (fun n _ _ _ => n) 0 default false default 0 default 0 false false VisualAlert.noAlert).1.apply_gas ≤ ((3072:ℤ):ℚ)) ∧
    (0 ≤ (CarController.update GMParams (fun n _ _ _ => n) 0 default false default 0 default 0 false false VisualAlert.noAlert).1.apply_brake ∧ (CarController.update GMParams (fun n _ _ _ => n) 0 default false default 0 default 0 false false VisualAlert.noAlert).1.apply_brake ≤ ((350:ℤ):ℚ)) ∧
    (false = true → (default : CSIn).pause_long_on_gas_press = false →
      (default : CSIn).one_pedal_mode_active = true →
      ONE_PEDAL_MAX_DECEL ≤ (CarController.update GMParams (fun n _ _ _ => n) 0 default false default 0 default 0 false false VisualAlert.noAlert).1.one_pedal_decel)) :=
  ⟨rfl, C2_ranges_amended GMParams (fun n _ _ _ => n) 0 default false default 0 default 0
    false false VisualAlert.noAlert 1404 3072 350 rfl
    (by simp [GMParams]) (by simp [GMParams]) (by simp [GMParams]) (by simp [GMParams])
    (by intro v hv
        simp only [GMParams] at hv
        fin_cases hv <;> norm_num)
    (by intro v hv
        simp only [GMParams] at hv
        fin_cases hv <;> norm_num)
    (by norm_num [GMParams]) (by norm_num [GMParams])
    (by refine ⟨?_, ?_, ?_, ?_, ?_, ?_, ?_, ?_, ?_, ?_⟩ <;>
        exact fun v hv => absurd hv (List.not_mem_nil v))⟩


end DAS
